import Mathlib

/-!
Verification of the derived-props synchronization engine of
src/components/connect.js (a react-redux style connector).

The embedding models one mounted `Connect` instance as an explicit state
machine.  JavaScript values that are only ever compared by identity
(store state snapshots, the dispatch capability, property values) are
modelled as natural-number ids; a props object is an association list of
string keys to such ids.  Mapping functions are modelled as Lean
functions that may fail (a thrown exception becomes `Except.error`).
Every operation additionally returns a list of observable events (which
mapping was invoked with which arguments, whether a fresh rendered
element was allocated) so that claims about invocations and re-renders
are statable.
-/

namespace RCConnect

/-- A JavaScript value compared only by identity, modelled as an id. -/
abbrev Val := Nat

/-- A thrown JavaScript exception, modelled as an id. -/
abbrev Err := Nat

/-- A plain props object: an association list from keys to value ids.
Lookup takes the first matching key. -/
abbrev Obj := List (String × Val)

/-- A rendered element: an allocation id (reference identity of the
object built by createElement) together with the props it was built
from. -/
abbrev Elem := Nat × Obj

/-- The keys of a props object. -/
def keys (o : Obj) : List String := o.map Prod.fst

/-- Modelled from the spec: the utility shallowEqual (imported by
connect.js from ../utils/shallowEqual, not under src/).  Per the spec
glossary, two mappings are shallow-equal iff they have the same key set
and each corresponding value is reference/primitive-equal, one level
deep.  Stated over the union of both key lists: a key present on one
side only makes the corresponding lookups differ. -/
def shallowEqual (a b : Obj) : Bool :=
  (keys a ++ keys b).all fun k => decide (List.lookup k a = List.lookup k b)

/-- Shallow equality lifted to optional objects (null caches). -/
def shallowEqualOpt : Option Obj → Option Obj → Bool
  | some a, some b => shallowEqual a b
  | none, none => true
  | _, _ => false

/-- The JS object spread of b over a (keys of b win), up to key order,
which shallow equality ignores. -/
def spread (a b : Obj) : Obj :=
  a.filter (fun p => (List.lookup p.1 b).isNone) ++ b

/-- connect.js defaultMergeProps: the right-biased overlay
parentProps, then stateProps, then dispatchProps. -/
def defaultMergeProps (stateProps dispatchProps parentProps : Obj) : Obj :=
  spread (spread parentProps stateProps) dispatchProps

/-- A merge function, as configured by the user. -/
abbrev MergeFn := Obj → Obj → Obj → Obj

/-- A resolved mapping function (finalMapStateToProps or
finalMapDispatchToProps): a declared parameter count together with its
behavior.  It receives the source value (store state or the dispatch
capability) and optionally the own props (the second argument is `none`
when the call site passes only one argument).  A thrown exception is an
`Except.error`. -/
structure MapFn where
  arity : Nat
  run : Val → Option Obj → Except Err Obj

/-- A user-supplied raw mapping function (mapStateToProps or
mapDispatchToProps).  `factory = some f` models a function whose
invocation returns the callable `f` (the factory pattern of
configureFinalMapState/configureFinalMapDispatch); otherwise the
function behaves as `run`.  -/
structure RawMapFn where
  arity : Nat
  factory : Option MapFn
  run : Val → Option Obj → Except Err Obj

/-- connect.js defaultMapStateToProps: state => an empty object. -/
def defaultMapStateToProps : RawMapFn :=
  { arity := 1, factory := none, run := fun _ _ => .ok [] }

/-- connect.js defaultMapDispatchToProps: dispatch => an object exposing
dispatch under the fixed key "dispatch". -/
def defaultMapDispatchToProps : RawMapFn :=
  { arity := 1, factory := none, run := fun d _ => .ok [("dispatch", d)] }

/-- The configuration surface of one connect call.  `mergeProps = none`
means the default merge function is used (the code compares the
configured function against defaultMergeProps by reference, which the
option models).  `dispatchVal` is the id of the store's dispatch
capability, fixed for the instance lifetime.  The action-creators-object
form of mapDispatchToProps (wrapActionCreators) and the withRef option
are host plumbing outside the claims and are not modelled. -/
structure Config where
  mapStateToProps : Option RawMapFn
  mapDispatchToProps : Option RawMapFn
  mergeProps : Option MergeFn
  pure : Bool
  dispatchVal : Val

/-- connect.js: shouldSubscribe = Boolean(mapStateToProps). -/
def shouldSubscribe (cfg : Config) : Bool := cfg.mapStateToProps.isSome

/-- connect.js: mapState = mapStateToProps or the default. -/
def mapState (cfg : Config) : RawMapFn :=
  cfg.mapStateToProps.getD defaultMapStateToProps

/-- connect.js: mapDispatch = mapDispatchToProps (function form) or the
default. -/
def mapDispatch (cfg : Config) : RawMapFn :=
  cfg.mapDispatchToProps.getD defaultMapDispatchToProps

/-- connect.js: finalMergeProps = mergeProps or defaultMergeProps. -/
def finalMergeProps (cfg : Config) : MergeFn :=
  cfg.mergeProps.getD defaultMergeProps

/-- connect.js: checkMergedEquals = pure and a non-default merge
function was configured. -/
def checkMergedEquals (cfg : Config) : Bool :=
  cfg.pure && cfg.mergeProps.isSome

/-- An observable event of one pass: an invocation of the raw or the
resolved mapping for either slot (with the argument it received for own
props), an invocation of the merge function, or the allocation of a
fresh rendered element. -/
inductive Event where
  | callRawState : Val → Obj → Event
  | callState : Val → Option Obj → Event
  | callRawDispatch : Val → Obj → Event
  | callDispatch : Val → Option Obj → Event
  | callMerge : Obj → Obj → Obj → Event
  | newElement : Nat → Event
deriving DecidableEq

/-- The number of fresh rendered elements allocated in an event list. -/
def newElemCount (evs : List Event) : Nat :=
  evs.countP fun e => match e with | .newElement _ => true | _ => false

/-- The number of merge-function invocations in an event list. -/
def mergeCallCount (evs : List Event) : Nat :=
  evs.countP fun e => match e with | .callMerge _ _ _ => true | _ => false

/-- The number of resolved-state-mapping invocations in an event list. -/
def stateCallCount (evs : List Event) : Nat :=
  evs.countP fun e => match e with | .callState _ _ => true | _ => false

/-- The number of resolved-dispatch-mapping invocations. -/
def dispatchCallCount (evs : List Event) : Nat :=
  evs.countP fun e => match e with | .callDispatch _ _ => true | _ => false

/-- Checks a single event against the arity-derived dependency flags:
when the state slot does not depend on own props (depS = false), every
resolved-state-mapping invocation must carry no own-props argument;
when it does, every invocation must carry one — and symmetrically for
the dispatch slot.  Other events are unconstrained. -/
def eventRespects (depS depD : Bool) : Event → Bool
  | .callState _ none => !depS
  | .callState _ (some _) => depS
  | .callDispatch _ none => !depD
  | .callDispatch _ (some _) => depD
  | _ => true

/-- The mutable per-instance state of one mounted Connect component.
`storeCurrent` is the store's live state (what getState() returns right
now); `recordedStoreState` is this.state.storeState, the reference
recorded by the constructor and by setState in handleChange. -/
structure ConnectState where
  storeCurrent : Val
  recordedStoreState : Val
  props : Obj
  stateProps : Option Obj
  dispatchProps : Option Obj
  mergedProps : Option Obj
  haveOwnPropsChanged : Bool
  hasStoreStateChanged : Bool
  haveStatePropsBeenPrecalculated : Bool
  statePropsPrecalculationError : Option Err
  renderedElement : Option Elem
  finalMapStateToProps : Option MapFn
  doStatePropsDependOnOwnProps : Bool
  finalMapDispatchToProps : Option MapFn
  doDispatchPropsDependOnOwnProps : Bool
  subscribed : Bool
  nextElemId : Nat
deriving Inhabited

/-- Result of a compute operation: the possibly-updated instance state,
the events it produced, and the computed partial (or a thrown error). -/
structure ComputeRes where
  state : ConnectState
  events : List Event
  result : Except Err Obj

/-- Result of one of the updateXxxIfNeeded operations. -/
structure UpdRes where
  state : ConnectState
  events : List Event
  result : Except Err Bool

/-- Connect.configureFinalMapState: invoke the raw state mapping with
(store.getState(), props); if its result is callable install it as the
resolved mapping and immediately recompute through it, otherwise the raw
function itself becomes the resolved mapping and the first result is
returned directly.  The assignments happen after the first call, so a
throwing first call leaves the slot unconfigured. -/
def configureFinalMapState (cfg : Config) (st : ConnectState) : ComputeRes :=
  match (mapState cfg).factory with
  | some f =>
    let st1 := { st with finalMapStateToProps := some f,
                         doStatePropsDependOnOwnProps := decide (f.arity ≠ 1) }
    let arg := if st1.doStatePropsDependOnOwnProps then some st1.props else none
    { state := st1,
      events := [Event.callRawState st.storeCurrent st.props,
                 Event.callState st1.storeCurrent arg],
      result := f.run st1.storeCurrent arg }
  | none =>
    match (mapState cfg).run st.storeCurrent (some st.props) with
    | .error e =>
      { state := st, events := [Event.callRawState st.storeCurrent st.props],
        result := .error e }
    | .ok mappedState =>
      { state := { st with
                    finalMapStateToProps :=
                      some { arity := (mapState cfg).arity, run := (mapState cfg).run },
                    doStatePropsDependOnOwnProps := decide ((mapState cfg).arity ≠ 1) },
        events := [Event.callRawState st.storeCurrent st.props],
        result := .ok mappedState }

/-- Connect.computeStateProps: configure on first use, thereafter invoke
the resolved mapping with the fresh store state, passing own props only
if the dependency flag is set. -/
def computeStateProps (cfg : Config) (st : ConnectState) : ComputeRes :=
  match st.finalMapStateToProps with
  | none => configureFinalMapState cfg st
  | some f =>
    let state := st.storeCurrent
    let arg := if st.doStatePropsDependOnOwnProps then some st.props else none
    { state := st, events := [Event.callState state arg], result := f.run state arg }

/-- Connect.configureFinalMapDispatch, symmetric to the state slot but
sourcing from the dispatch capability. -/
def configureFinalMapDispatch (cfg : Config) (st : ConnectState) : ComputeRes :=
  match (mapDispatch cfg).factory with
  | some f =>
    let st1 := { st with finalMapDispatchToProps := some f,
                         doDispatchPropsDependOnOwnProps := decide (f.arity ≠ 1) }
    let arg := if st1.doDispatchPropsDependOnOwnProps then some st1.props else none
    { state := st1,
      events := [Event.callRawDispatch cfg.dispatchVal st.props,
                 Event.callDispatch cfg.dispatchVal arg],
      result := f.run cfg.dispatchVal arg }
  | none =>
    match (mapDispatch cfg).run cfg.dispatchVal (some st.props) with
    | .error e =>
      { state := st, events := [Event.callRawDispatch cfg.dispatchVal st.props],
        result := .error e }
    | .ok mappedDispatch =>
      { state := { st with
                    finalMapDispatchToProps :=
                      some { arity := (mapDispatch cfg).arity, run := (mapDispatch cfg).run },
                    doDispatchPropsDependOnOwnProps := decide ((mapDispatch cfg).arity ≠ 1) },
        events := [Event.callRawDispatch cfg.dispatchVal st.props],
        result := .ok mappedDispatch }

/-- Connect.computeDispatchProps. -/
def computeDispatchProps (cfg : Config) (st : ConnectState) : ComputeRes :=
  match st.finalMapDispatchToProps with
  | none => configureFinalMapDispatch cfg st
  | some f =>
    let arg := if st.doDispatchPropsDependOnOwnProps then some st.props else none
    { state := st, events := [Event.callDispatch cfg.dispatchVal arg],
      result := f.run cfg.dispatchVal arg }

/-- Connect.updateStatePropsIfNeeded: recompute, and if a cached value
exists and is shallow-equal report false without touching the cache;
otherwise store the new value and report true. -/
def updateStatePropsIfNeeded (cfg : Config) (st : ConnectState) : UpdRes :=
  match (computeStateProps cfg st).result with
  | .error e =>
    { state := (computeStateProps cfg st).state,
      events := (computeStateProps cfg st).events, result := .error e }
  | .ok nextStateProps =>
    match (computeStateProps cfg st).state.stateProps with
    | some sp =>
      if shallowEqual nextStateProps sp then
        { state := (computeStateProps cfg st).state,
          events := (computeStateProps cfg st).events, result := .ok false }
      else
        { state := { (computeStateProps cfg st).state with
                      stateProps := some nextStateProps },
          events := (computeStateProps cfg st).events, result := .ok true }
    | none =>
      { state := { (computeStateProps cfg st).state with
                    stateProps := some nextStateProps },
        events := (computeStateProps cfg st).events, result := .ok true }

/-- Connect.updateDispatchPropsIfNeeded. -/
def updateDispatchPropsIfNeeded (cfg : Config) (st : ConnectState) : UpdRes :=
  match (computeDispatchProps cfg st).result with
  | .error e =>
    { state := (computeDispatchProps cfg st).state,
      events := (computeDispatchProps cfg st).events, result := .error e }
  | .ok nextDispatchProps =>
    match (computeDispatchProps cfg st).state.dispatchProps with
    | some dp =>
      if shallowEqual nextDispatchProps dp then
        { state := (computeDispatchProps cfg st).state,
          events := (computeDispatchProps cfg st).events, result := .ok false }
      else
        { state := { (computeDispatchProps cfg st).state with
                      dispatchProps := some nextDispatchProps },
          events := (computeDispatchProps cfg st).events, result := .ok true }
    | none =>
      { state := { (computeDispatchProps cfg st).state with
                    dispatchProps := some nextDispatchProps },
        events := (computeDispatchProps cfg st).events, result := .ok true }

/-- computeMergedProps: apply the configured merge function to the
cached state partial, the cached dispatch partial and the current own
props.  (The development-build plain-object warning is a no-op.) -/
def computeMergedProps (cfg : Config) (st : ConnectState) : Obj :=
  finalMergeProps cfg (st.stateProps.getD []) (st.dispatchProps.getD []) st.props

/-- Result of updateMergedPropsIfNeeded. -/
structure MergeRes where
  changed : Bool
  state : ConnectState
  events : List Event

/-- Connect.updateMergedPropsIfNeeded: recompute the merged props; if a
cached value exists, checkMergedEquals holds and the recomputation is
shallow-equal, report false and keep the cache; otherwise store and
report true. -/
def updateMergedPropsIfNeeded (cfg : Config) (st : ConnectState) : MergeRes :=
  match st.mergedProps with
  | some m =>
    if checkMergedEquals cfg && shallowEqual (computeMergedProps cfg st) m then
      { changed := false, state := st,
        events := [Event.callMerge (st.stateProps.getD [])
                     (st.dispatchProps.getD []) st.props] }
    else
      { changed := true,
        state := { st with mergedProps := some (computeMergedProps cfg st) },
        events := [Event.callMerge (st.stateProps.getD [])
                     (st.dispatchProps.getD []) st.props] }
  | none =>
    { changed := true,
      state := { st with mergedProps := some (computeMergedProps cfg st) },
      events := [Event.callMerge (st.stateProps.getD [])
                   (st.dispatchProps.getD []) st.props] }

/-- The result of one render pass: the instance state afterwards, the
produced element (or the thrown error), the events, and the pass-local
booleans of Connect.render, exposed for observability:
haveStatePropsChanged, haveDispatchPropsChanged, the snapshot of
haveOwnPropsChanged, and whether the merge was recomputed. -/
structure RenderOut where
  state : ConnectState
  output : Except Err Elem
  events : List Event
  sChanged : Bool
  dChanged : Bool
  ownSnap : Bool
  mergeRecomputed : Bool

/-- The exit of Connect.render: if the merged props did not change and a
previous element exists, return that element unmodified; otherwise build
a fresh element from the merged props (createElement, a fresh object
identity). -/
def renderApply (renderedSnap : Option Elem)
    (sChanged dChanged ownSnap mergeRecomputed : Bool) (ev12 : List Event)
    (mres : MergeRes) : RenderOut :=
  if !mres.changed && renderedSnap.isSome then
    { state := mres.state, output := .ok (renderedSnap.getD default),
      events := ev12 ++ mres.events,
      sChanged := sChanged, dChanged := dChanged, ownSnap := ownSnap,
      mergeRecomputed := mergeRecomputed }
  else
    { state := { mres.state with
                  renderedElement :=
                    some (mres.state.nextElemId, mres.state.mergedProps.getD []),
                  nextElemId := mres.state.nextElemId + 1 },
      output := .ok (mres.state.nextElemId, mres.state.mergedProps.getD []),
      events := ev12 ++ mres.events ++ [Event.newElement mres.state.nextElemId],
      sChanged := sChanged, dChanged := dChanged, ownSnap := ownSnap,
      mergeRecomputed := mergeRecomputed }

/-- The tail of Connect.render after the two partials were settled:
recompute the merged props only when some input changed, then exit
through renderApply. -/
def renderFinish (cfg : Config) (renderedSnap : Option Elem)
    (sChanged dChanged ownSnap : Bool) (ev12 : List Event)
    (st2 : ConnectState) : RenderOut :=
  if sChanged || dChanged || ownSnap then
    renderApply renderedSnap sChanged dChanged ownSnap true ev12
      (updateMergedPropsIfNeeded cfg st2)
  else
    renderApply renderedSnap sChanged dChanged ownSnap false ev12
      { changed := false, state := st2, events := [] }

/-- The continuation of Connect.render after the dispatch partial was
settled: propagate a thrown error, otherwise finish. -/
def renderDispatchApply (cfg : Config) (renderedSnap : Option Elem)
    (ownSnap sChanged : Bool) (ev1 : List Event) (afterD : UpdRes) : RenderOut :=
  match afterD.result with
  | .error e =>
    { state := afterD.state, output := .error e, events := ev1 ++ afterD.events,
      sChanged := sChanged, dChanged := false, ownSnap := ownSnap,
      mergeRecomputed := false }
  | .ok dChanged =>
    renderFinish cfg renderedSnap sChanged dChanged ownSnap
      (ev1 ++ afterD.events) afterD.state

/-- The dispatch stage of Connect.render: update the dispatch partial
when required, then continue. -/
def renderDispatchStage (cfg : Config) (renderedSnap : Option Elem)
    (ownSnap sChanged shouldUpdateDispatchProps : Bool) (ev1 : List Event)
    (st1 : ConnectState) : RenderOut :=
  renderDispatchApply cfg renderedSnap ownSnap sChanged ev1
    (if shouldUpdateDispatchProps then updateDispatchPropsIfNeeded cfg st1
     else { state := st1, events := [], result := .ok false })

/-- The continuation of Connect.render after the state partial was
settled: propagate a thrown error, otherwise run the dispatch stage. -/
def renderStateApply (cfg : Config) (renderedSnap : Option Elem)
    (ownSnap shouldUpdateDispatchProps : Bool) (afterS : UpdRes) : RenderOut :=
  match afterS.result with
  | .error e =>
    { state := afterS.state, output := .error e, events := afterS.events,
      sChanged := false, dChanged := false, ownSnap := ownSnap,
      mergeRecomputed := false }
  | .ok sChanged =>
    renderDispatchStage cfg renderedSnap ownSnap sChanged
      shouldUpdateDispatchProps afterS.events afterS.state

/-- The main body of Connect.render once no deferred error was pending:
decide which partials may need recomputation (on a pure instance with a
previous element, state props only when store state changed or when own
props changed and are depended on; dispatch props only when own props
changed and are depended on; on a first render or an impure instance,
both), settle the state partial (a precalculated one counts as changed
without recomputation) and continue. -/
def renderMain (cfg : Config) (st0 : ConnectState)
    (ownSnap storeSnap precalcSnap : Bool)
    (renderedSnap : Option Elem) : RenderOut :=
  renderStateApply cfg renderedSnap ownSnap
    (if cfg.pure && renderedSnap.isSome then
       ownSnap && st0.doDispatchPropsDependOnOwnProps
     else true)
    (if precalcSnap then { state := st0, events := [], result := .ok true }
     else if (if cfg.pure && renderedSnap.isSome then
                storeSnap || (ownSnap && st0.doStatePropsDependOnOwnProps)
              else true) then
       updateStatePropsIfNeeded cfg st0
     else { state := st0, events := [], result := .ok false })

/-- Reset the four dirty flags (the start of Connect.render). -/
def resetFlags (st : ConnectState) : ConnectState :=
  { st with haveOwnPropsChanged := false, hasStoreStateChanged := false,
            haveStatePropsBeenPrecalculated := false,
            statePropsPrecalculationError := none }

/-- Connect.render: snapshot then reset the four dirty flags, surface a
deferred precalculation error (after the reset), then run the main
body. -/
def render (cfg : Config) (st : ConnectState) : RenderOut :=
  match st.statePropsPrecalculationError with
  | some e =>
    { state := resetFlags st, output := .error e, events := [],
      sChanged := false, dChanged := false, ownSnap := st.haveOwnPropsChanged,
      mergeRecomputed := false }
  | none =>
    renderMain cfg (resetFlags st) st.haveOwnPropsChanged
      st.hasStoreStateChanged st.haveStatePropsBeenPrecalculated
      st.renderedElement

/-- The outcome of processing one inbound update (an own-props refresh
or a store notification): the state afterwards, the render outcome when
a render pass ran (`none` when no render pass was triggered), and the
events. -/
structure StepOut where
  state : ConnectState
  rendered : Option (Except Err Elem)
  events : List Event

/-- Connect.handleChange, the store notification listener, taken at the
point where the store's live state is already `st.storeCurrent`: ignore
when torn down; on a pure instance skip when getState() returned the
recorded reference; when pure and the resolved state mapping does not
depend on own props, eagerly recompute state props inside tryCatch,
returning early when nothing changed and recording a thrown error for
the next render pass; otherwise mark the store state changed, record the
new reference (setState) and run the update pass that setState triggers
(shouldComponentUpdate is true since hasStoreStateChanged was set).
handleChangeTail is the common tail of handleChange after the early
returns: set hasStoreStateChanged, record the reference (setState) and
run the update pass that the setState triggers. -/
def handleChangeTail (cfg : Config) (st1 : ConnectState) (ev : List Event)
    (storeState : Val) : StepOut :=
  { state := (render cfg { st1 with hasStoreStateChanged := true,
                                    recordedStoreState := storeState }).state,
    rendered := some (render cfg { st1 with hasStoreStateChanged := true,
                                            recordedStoreState := storeState }).output,
    events := ev ++ (render cfg { st1 with hasStoreStateChanged := true,
                                           recordedStoreState := storeState }).events }

/-- Connect.handleChange, the store notification listener (see the
comment on handleChangeTail for the shared tail). -/
def handleChange (cfg : Config) (st : ConnectState) : StepOut :=
  if !st.subscribed then { state := st, rendered := none, events := [] }
  else if cfg.pure && (st.recordedStoreState == st.storeCurrent) then
    { state := st, rendered := none, events := [] }
  else if cfg.pure && !st.doStatePropsDependOnOwnProps then
    match (updateStatePropsIfNeeded cfg st).result with
    | .ok false =>
      { state := (updateStatePropsIfNeeded cfg st).state, rendered := none,
        events := (updateStatePropsIfNeeded cfg st).events }
    | .ok true =>
      handleChangeTail cfg
        { (updateStatePropsIfNeeded cfg st).state with
            haveStatePropsBeenPrecalculated := true }
        (updateStatePropsIfNeeded cfg st).events st.storeCurrent
    | .error e =>
      handleChangeTail cfg
        { (updateStatePropsIfNeeded cfg st).state with
            statePropsPrecalculationError := some e,
            haveStatePropsBeenPrecalculated := true }
        (updateStatePropsIfNeeded cfg st).events st.storeCurrent
  else handleChangeTail cfg st [] st.storeCurrent

/-- Connect.componentWillReceiveProps: flag own props as changed when
the instance is impure or the next props are shallow-unequal to the
current ones. -/
def componentWillReceiveProps (cfg : Config) (st : ConnectState)
    (nextProps : Obj) : ConnectState :=
  if !cfg.pure || !shallowEqual nextProps st.props then
    { st with haveOwnPropsChanged := true }
  else st

/-- One inbound update from the view host or the store. -/
inductive Update where
  | ownProps : Obj → Update
  | notify : Val → Update

/-- The instance state after componentWillReceiveProps ran and the host
installed the new props. -/
def receiveProps (cfg : Config) (st : ConnectState) (nextProps : Obj) : ConnectState :=
  { componentWillReceiveProps cfg st nextProps with props := nextProps }

/-- Processing an own-props update: componentWillReceiveProps, the host
installs the new props, then shouldComponentUpdate gates the render
pass. -/
def stepOwnProps (cfg : Config) (st : ConnectState) (nextProps : Obj) : StepOut :=
  if !cfg.pure || (receiveProps cfg st nextProps).haveOwnPropsChanged
      || (receiveProps cfg st nextProps).hasStoreStateChanged then
    { state := (render cfg (receiveProps cfg st nextProps)).state,
      rendered := some (render cfg (receiveProps cfg st nextProps)).output,
      events := (render cfg (receiveProps cfg st nextProps)).events }
  else
    { state := receiveProps cfg st nextProps, rendered := none, events := [] }

/-- Processing a store notification carrying the store's new live
state: the store mutates, then the listener runs. -/
def stepNotify (cfg : Config) (st : ConnectState) (v : Val) : StepOut :=
  handleChange cfg { st with storeCurrent := v }

/-- Process one update. -/
def step (cfg : Config) (st : ConnectState) : Update → StepOut
  | .ownProps p => stepOwnProps cfg st p
  | .notify v => stepNotify cfg st v

/-- The instance state right after the constructor: the store reference
is bound, this.state.storeState records getState(), and clearCache has
initialized the cache (both changed flags deliberately true, everything
else blank). -/
def initialState (s0 : Val) (p0 : Obj) : ConnectState :=
  { storeCurrent := s0, recordedStoreState := s0, props := p0,
    stateProps := none, dispatchProps := none, mergedProps := none,
    haveOwnPropsChanged := true, hasStoreStateChanged := true,
    haveStatePropsBeenPrecalculated := false,
    statePropsPrecalculationError := none,
    renderedElement := none, finalMapStateToProps := none,
    doStatePropsDependOnOwnProps := false, finalMapDispatchToProps := none,
    doDispatchPropsDependOnOwnProps := false, subscribed := false,
    nextElemId := 0 }

/-- The outcome of mounting: construct, first render, then
componentDidMount subscribes (when a state mapping was supplied) and
trySubscribe immediately runs one synchronous handleChange pass. -/
structure MountOut where
  state : ConnectState
  firstRender : Except Err Elem
  initialNotify : Option (Except Err Elem)
  events : List Event

/-- Mount one instance against a store whose state is s0, with initial
own props p0. -/
def mount (cfg : Config) (s0 : Val) (p0 : Obj) : MountOut :=
  let r := render cfg (initialState s0 p0)
  if shouldSubscribe cfg then
    let h := handleChange cfg { r.state with subscribed := true }
    { state := h.state, firstRender := r.output, initialNotify := h.rendered,
      events := r.events ++ h.events }
  else
    { state := r.state, firstRender := r.output, initialNotify := none,
      events := r.events }

/-- Run a sequence of updates, collecting the final state and all
events. -/
def run (cfg : Config) (st : ConnectState) : List Update → ConnectState × List Event
  | [] => (st, [])
  | u :: us =>
    let r := step cfg st u
    let rest := run cfg r.state us
    (rest.1, r.events ++ rest.2)

/-- 1 when the merged-props cache moved to a shallow-unequal value, 0
when it stayed shallow-equal. -/
def mergedChangedFlag (a b : Option Obj) : Nat :=
  if shallowEqualOpt a b then 0 else 1

/-- Over a sequence of updates: the total number of fresh rendered
elements produced, paired with the number of updates after which the
merged-props cache is shallow-unequal to its predecessor. -/
def runCounts (cfg : Config) (st : ConnectState) : List Update → Nat × Nat
  | [] => (0, 0)
  | u :: us =>
    let r := step cfg st u
    let rest := runCounts cfg r.state us
    (newElemCount r.events + rest.1,
     mergedChangedFlag st.mergedProps r.state.mergedProps + rest.2)

/-! ## Concrete instances used to evaluate the model on closed runs. -/

/-- A pure configuration with the default merge function and an arity-1
state mapping that always produces the partial with key "a" and value
id 5 (shadowing an own prop of the same key). -/
def exCfgShadow : Config :=
  { mapStateToProps := some ⟨1, none, fun _ _ => .ok [("a", 5)]⟩,
    mapDispatchToProps := none, mergeProps := none, pure := true,
    dispatchVal := 7 }

/-- A pure configuration with a non-default merge function (merged props
are exactly the state partial) and an arity-1 state mapping exposing the
store state id under "count". -/
def exCfgMerge : Config :=
  { mapStateToProps := some ⟨1, none, fun s _ => .ok [("count", s)]⟩,
    mapDispatchToProps := none,
    mergeProps := some (fun statePart _ _ => statePart), pure := true,
    dispatchVal := 7 }

/-- An impure configuration (pure = false) with a constant arity-1 state
mapping. -/
def exCfgImpure : Config :=
  { mapStateToProps := some ⟨1, none, fun _ _ => .ok []⟩,
    mapDispatchToProps := none, mergeProps := none, pure := false,
    dispatchVal := 7 }

/-- A pure configuration with a constant arity-1 state mapping producing
key "k", value id 7. -/
def exCfgConst : Config :=
  { mapStateToProps := some ⟨1, none, fun _ _ => .ok [("k", 7)]⟩,
    mapDispatchToProps := none, mergeProps := none, pure := true,
    dispatchVal := 7 }

/-- A pure configuration whose arity-1 state mapping succeeds on store
state 0 and throws exception 42 on any other store state. -/
def exCfgThrow : Config :=
  { mapStateToProps := some ⟨1, none, fun s _ => if s = 0 then .ok [("k", 7)] else .error 42⟩,
    mapDispatchToProps := none, mergeProps := none, pure := true,
    dispatchVal := 7 }

/-- A pure configuration whose state mapping is a factory: the first
invocation returns an arity-2 resolved mapping exposing the store state
under "s". -/
def exCfgFactory : Config :=
  { mapStateToProps := some ⟨2, some ⟨2, fun s _ => .ok [("s", s)]⟩, fun _ _ => .ok []⟩,
    mapDispatchToProps := none, mergeProps := none, pure := true,
    dispatchVal := 7 }

/-- An impure configuration with a non-default constant merge
function. -/
def exCfgImpureMerge : Config :=
  { mapStateToProps := none, mapDispatchToProps := none,
    mergeProps := some (fun _ _ _ => [("m", 1)]), pure := false,
    dispatchVal := 7 }

/-- A pure configuration with a non-default constant merge function. -/
def exCfgPureMerge : Config :=
  { mapStateToProps := none, mapDispatchToProps := none,
    mergeProps := some (fun _ _ _ => [("m", 1)]), pure := true,
    dispatchVal := 7 }

/-- A hand-built cached instance state whose merged-props cache already
equals the constant merge output. -/
def exStMergedCache : ConnectState :=
  { initialState 0 [] with
    stateProps := some [],
    dispatchProps := some [("dispatch", 7)],
    mergedProps := some [("m", 1)],
    haveOwnPropsChanged := false,
    hasStoreStateChanged := false }

/-! ## Basic properties of shallow equality -/

theorem shallowEqual_refl (a : Obj) : shallowEqual a a = true := by
  simp [shallowEqual]

theorem shallowEqual_symm (a b : Obj) : shallowEqual a b = shallowEqual b a := by
  have h : ∀ k, decide (List.lookup k a = List.lookup k b)
      = decide (List.lookup k b = List.lookup k a) := by
    intro k
    simp [eq_comm]
  simp only [shallowEqual, List.all_append, h, Bool.and_comm]

theorem shallowEqualOpt_refl (o : Option Obj) : shallowEqualOpt o o = true := by
  cases o with
  | none => rfl
  | some a => simpa [shallowEqualOpt] using shallowEqual_refl a

theorem mergedChangedFlag_refl (o : Option Obj) : mergedChangedFlag o o = 0 := by
  simp [mergedChangedFlag, shallowEqualOpt_refl]

/-! ## Frame lemmas: which instance fields each engine operation can
touch, and which events it can emit. -/

theorem computeStateProps_frame (cfg : Config) (st : ConnectState) :
    (computeStateProps cfg st).state.stateProps = st.stateProps ∧
    (computeStateProps cfg st).state.dispatchProps = st.dispatchProps ∧
    (computeStateProps cfg st).state.mergedProps = st.mergedProps ∧
    (computeStateProps cfg st).state.renderedElement = st.renderedElement ∧
    (computeStateProps cfg st).state.nextElemId = st.nextElemId ∧
    (computeStateProps cfg st).state.haveOwnPropsChanged = st.haveOwnPropsChanged ∧
    (computeStateProps cfg st).state.hasStoreStateChanged = st.hasStoreStateChanged ∧
    (computeStateProps cfg st).state.haveStatePropsBeenPrecalculated
      = st.haveStatePropsBeenPrecalculated ∧
    (computeStateProps cfg st).state.statePropsPrecalculationError
      = st.statePropsPrecalculationError ∧
    (computeStateProps cfg st).state.props = st.props ∧
    (computeStateProps cfg st).state.storeCurrent = st.storeCurrent ∧
    (computeStateProps cfg st).state.recordedStoreState = st.recordedStoreState ∧
    (computeStateProps cfg st).state.subscribed = st.subscribed ∧
    (computeStateProps cfg st).state.finalMapDispatchToProps
      = st.finalMapDispatchToProps ∧
    (computeStateProps cfg st).state.doDispatchPropsDependOnOwnProps
      = st.doDispatchPropsDependOnOwnProps ∧
    newElemCount (computeStateProps cfg st).events = 0 ∧
    mergeCallCount (computeStateProps cfg st).events = 0 ∧
    dispatchCallCount (computeStateProps cfg st).events = 0 := by
  unfold computeStateProps configureFinalMapState
  split
  · split
    · simp [newElemCount, mergeCallCount, dispatchCallCount]
    · split
      · simp [newElemCount, mergeCallCount, dispatchCallCount]
      · simp [newElemCount, mergeCallCount, dispatchCallCount]
  · simp [newElemCount, mergeCallCount, dispatchCallCount]

theorem computeDispatchProps_frame (cfg : Config) (st : ConnectState) :
    (computeDispatchProps cfg st).state.stateProps = st.stateProps ∧
    (computeDispatchProps cfg st).state.dispatchProps = st.dispatchProps ∧
    (computeDispatchProps cfg st).state.mergedProps = st.mergedProps ∧
    (computeDispatchProps cfg st).state.renderedElement = st.renderedElement ∧
    (computeDispatchProps cfg st).state.nextElemId = st.nextElemId ∧
    (computeDispatchProps cfg st).state.haveOwnPropsChanged = st.haveOwnPropsChanged ∧
    (computeDispatchProps cfg st).state.hasStoreStateChanged = st.hasStoreStateChanged ∧
    (computeDispatchProps cfg st).state.haveStatePropsBeenPrecalculated
      = st.haveStatePropsBeenPrecalculated ∧
    (computeDispatchProps cfg st).state.statePropsPrecalculationError
      = st.statePropsPrecalculationError ∧
    (computeDispatchProps cfg st).state.props = st.props ∧
    (computeDispatchProps cfg st).state.storeCurrent = st.storeCurrent ∧
    (computeDispatchProps cfg st).state.recordedStoreState = st.recordedStoreState ∧
    (computeDispatchProps cfg st).state.subscribed = st.subscribed ∧
    (computeDispatchProps cfg st).state.finalMapStateToProps
      = st.finalMapStateToProps ∧
    (computeDispatchProps cfg st).state.doStatePropsDependOnOwnProps
      = st.doStatePropsDependOnOwnProps ∧
    newElemCount (computeDispatchProps cfg st).events = 0 ∧
    mergeCallCount (computeDispatchProps cfg st).events = 0 ∧
    stateCallCount (computeDispatchProps cfg st).events = 0 := by
  unfold computeDispatchProps configureFinalMapDispatch
  split
  · split
    · simp [newElemCount, mergeCallCount, stateCallCount]
    · split
      · simp [newElemCount, mergeCallCount, stateCallCount]
      · simp [newElemCount, mergeCallCount, stateCallCount]
  · simp [newElemCount, mergeCallCount, stateCallCount]

theorem updateStatePropsIfNeeded_frame (cfg : Config) (st : ConnectState) :
    (updateStatePropsIfNeeded cfg st).state.dispatchProps = st.dispatchProps ∧
    (updateStatePropsIfNeeded cfg st).state.mergedProps = st.mergedProps ∧
    (updateStatePropsIfNeeded cfg st).state.renderedElement = st.renderedElement ∧
    (updateStatePropsIfNeeded cfg st).state.nextElemId = st.nextElemId ∧
    (updateStatePropsIfNeeded cfg st).state.haveOwnPropsChanged
      = st.haveOwnPropsChanged ∧
    (updateStatePropsIfNeeded cfg st).state.hasStoreStateChanged
      = st.hasStoreStateChanged ∧
    (updateStatePropsIfNeeded cfg st).state.haveStatePropsBeenPrecalculated
      = st.haveStatePropsBeenPrecalculated ∧
    (updateStatePropsIfNeeded cfg st).state.statePropsPrecalculationError
      = st.statePropsPrecalculationError ∧
    (updateStatePropsIfNeeded cfg st).state.props = st.props ∧
    (updateStatePropsIfNeeded cfg st).state.storeCurrent = st.storeCurrent ∧
    (updateStatePropsIfNeeded cfg st).state.recordedStoreState
      = st.recordedStoreState ∧
    (updateStatePropsIfNeeded cfg st).state.subscribed = st.subscribed ∧
    (updateStatePropsIfNeeded cfg st).state.finalMapDispatchToProps
      = st.finalMapDispatchToProps ∧
    (updateStatePropsIfNeeded cfg st).state.doDispatchPropsDependOnOwnProps
      = st.doDispatchPropsDependOnOwnProps ∧
    newElemCount (updateStatePropsIfNeeded cfg st).events = 0 ∧
    mergeCallCount (updateStatePropsIfNeeded cfg st).events = 0 ∧
    dispatchCallCount (updateStatePropsIfNeeded cfg st).events = 0 := by
  have h := computeStateProps_frame cfg st
  unfold updateStatePropsIfNeeded
  split
  · exact ⟨h.2.1, h.2.2.1, h.2.2.2.1, h.2.2.2.2.1, h.2.2.2.2.2.1, h.2.2.2.2.2.2.1,
      h.2.2.2.2.2.2.2.1, h.2.2.2.2.2.2.2.2.1, h.2.2.2.2.2.2.2.2.2.1,
      h.2.2.2.2.2.2.2.2.2.2.1, h.2.2.2.2.2.2.2.2.2.2.2.1,
      h.2.2.2.2.2.2.2.2.2.2.2.2.1, h.2.2.2.2.2.2.2.2.2.2.2.2.2.1,
      h.2.2.2.2.2.2.2.2.2.2.2.2.2.2.1, h.2.2.2.2.2.2.2.2.2.2.2.2.2.2.2.1,
      h.2.2.2.2.2.2.2.2.2.2.2.2.2.2.2.2.1, h.2.2.2.2.2.2.2.2.2.2.2.2.2.2.2.2.2⟩
  · split
    · split
      · exact ⟨h.2.1, h.2.2.1, h.2.2.2.1, h.2.2.2.2.1, h.2.2.2.2.2.1, h.2.2.2.2.2.2.1,
          h.2.2.2.2.2.2.2.1, h.2.2.2.2.2.2.2.2.1, h.2.2.2.2.2.2.2.2.2.1,
          h.2.2.2.2.2.2.2.2.2.2.1, h.2.2.2.2.2.2.2.2.2.2.2.1,
          h.2.2.2.2.2.2.2.2.2.2.2.2.1, h.2.2.2.2.2.2.2.2.2.2.2.2.2.1,
          h.2.2.2.2.2.2.2.2.2.2.2.2.2.2.1, h.2.2.2.2.2.2.2.2.2.2.2.2.2.2.2.1,
          h.2.2.2.2.2.2.2.2.2.2.2.2.2.2.2.2.1, h.2.2.2.2.2.2.2.2.2.2.2.2.2.2.2.2.2⟩
      · exact ⟨h.2.1, h.2.2.1, h.2.2.2.1, h.2.2.2.2.1, h.2.2.2.2.2.1, h.2.2.2.2.2.2.1,
          h.2.2.2.2.2.2.2.1, h.2.2.2.2.2.2.2.2.1, h.2.2.2.2.2.2.2.2.2.1,
          h.2.2.2.2.2.2.2.2.2.2.1, h.2.2.2.2.2.2.2.2.2.2.2.1,
          h.2.2.2.2.2.2.2.2.2.2.2.2.1, h.2.2.2.2.2.2.2.2.2.2.2.2.2.1,
          h.2.2.2.2.2.2.2.2.2.2.2.2.2.2.1, h.2.2.2.2.2.2.2.2.2.2.2.2.2.2.2.1,
          h.2.2.2.2.2.2.2.2.2.2.2.2.2.2.2.2.1, h.2.2.2.2.2.2.2.2.2.2.2.2.2.2.2.2.2⟩
    · exact ⟨h.2.1, h.2.2.1, h.2.2.2.1, h.2.2.2.2.1, h.2.2.2.2.2.1, h.2.2.2.2.2.2.1,
        h.2.2.2.2.2.2.2.1, h.2.2.2.2.2.2.2.2.1, h.2.2.2.2.2.2.2.2.2.1,
        h.2.2.2.2.2.2.2.2.2.2.1, h.2.2.2.2.2.2.2.2.2.2.2.1,
        h.2.2.2.2.2.2.2.2.2.2.2.2.1, h.2.2.2.2.2.2.2.2.2.2.2.2.2.1,
        h.2.2.2.2.2.2.2.2.2.2.2.2.2.2.1, h.2.2.2.2.2.2.2.2.2.2.2.2.2.2.2.1,
        h.2.2.2.2.2.2.2.2.2.2.2.2.2.2.2.2.1, h.2.2.2.2.2.2.2.2.2.2.2.2.2.2.2.2.2⟩

theorem updateDispatchPropsIfNeeded_frame (cfg : Config) (st : ConnectState) :
    (updateDispatchPropsIfNeeded cfg st).state.stateProps = st.stateProps ∧
    (updateDispatchPropsIfNeeded cfg st).state.mergedProps = st.mergedProps ∧
    (updateDispatchPropsIfNeeded cfg st).state.renderedElement
      = st.renderedElement ∧
    (updateDispatchPropsIfNeeded cfg st).state.nextElemId = st.nextElemId ∧
    (updateDispatchPropsIfNeeded cfg st).state.haveOwnPropsChanged
      = st.haveOwnPropsChanged ∧
    (updateDispatchPropsIfNeeded cfg st).state.hasStoreStateChanged
      = st.hasStoreStateChanged ∧
    (updateDispatchPropsIfNeeded cfg st).state.haveStatePropsBeenPrecalculated
      = st.haveStatePropsBeenPrecalculated ∧
    (updateDispatchPropsIfNeeded cfg st).state.statePropsPrecalculationError
      = st.statePropsPrecalculationError ∧
    (updateDispatchPropsIfNeeded cfg st).state.props = st.props ∧
    (updateDispatchPropsIfNeeded cfg st).state.storeCurrent = st.storeCurrent ∧
    (updateDispatchPropsIfNeeded cfg st).state.recordedStoreState
      = st.recordedStoreState ∧
    (updateDispatchPropsIfNeeded cfg st).state.subscribed = st.subscribed ∧
    (updateDispatchPropsIfNeeded cfg st).state.finalMapStateToProps
      = st.finalMapStateToProps ∧
    (updateDispatchPropsIfNeeded cfg st).state.doStatePropsDependOnOwnProps
      = st.doStatePropsDependOnOwnProps ∧
    newElemCount (updateDispatchPropsIfNeeded cfg st).events = 0 ∧
    mergeCallCount (updateDispatchPropsIfNeeded cfg st).events = 0 ∧
    stateCallCount (updateDispatchPropsIfNeeded cfg st).events = 0 := by
  obtain ⟨h1, h2, h3, h4, h5, h6, h7, h8, h9, h10, h11, h12, h13, h14, h15,
    h16, h17, h18⟩ := computeDispatchProps_frame cfg st
  unfold updateDispatchPropsIfNeeded
  split
  · exact ⟨h1, h3, h4, h5, h6, h7, h8, h9, h10, h11, h12, h13, h14, h15,
      h16, h17, h18⟩
  · split
    · split
      · exact ⟨h1, h3, h4, h5, h6, h7, h8, h9, h10, h11, h12, h13, h14, h15,
          h16, h17, h18⟩
      · exact ⟨h1, h3, h4, h5, h6, h7, h8, h9, h10, h11, h12, h13, h14, h15,
          h16, h17, h18⟩
    · exact ⟨h1, h3, h4, h5, h6, h7, h8, h9, h10, h11, h12, h13, h14, h15,
        h16, h17, h18⟩

/-! ## Specification of updateMergedPropsIfNeeded -/

theorem updateMergedPropsIfNeeded_events (cfg : Config) (st : ConnectState) :
    (updateMergedPropsIfNeeded cfg st).events
      = [Event.callMerge (st.stateProps.getD []) (st.dispatchProps.getD []) st.props] := by
  unfold updateMergedPropsIfNeeded
  split
  · split <;> rfl
  · rfl

theorem updateMergedPropsIfNeeded_state_of_not_changed (cfg : Config)
    (st : ConnectState) (h : (updateMergedPropsIfNeeded cfg st).changed = false) :
    (updateMergedPropsIfNeeded cfg st).state = st := by
  cases hm : st.mergedProps with
  | none => simp [updateMergedPropsIfNeeded, hm] at h
  | some m =>
    by_cases hc : (checkMergedEquals cfg
        && shallowEqual (computeMergedProps cfg st) m) = true
    · simp [updateMergedPropsIfNeeded, hm, hc]
    · simp [updateMergedPropsIfNeeded, hm, hc] at h

theorem updateMergedPropsIfNeeded_state_of_changed (cfg : Config)
    (st : ConnectState) (h : (updateMergedPropsIfNeeded cfg st).changed = true) :
    (updateMergedPropsIfNeeded cfg st).state
      = { st with mergedProps := some (computeMergedProps cfg st) } := by
  cases hm : st.mergedProps with
  | none => simp [updateMergedPropsIfNeeded, hm]
  | some m =>
    by_cases hc : (checkMergedEquals cfg
        && shallowEqual (computeMergedProps cfg st) m) = true
    · simp [updateMergedPropsIfNeeded, hm, hc] at h
    · simp [updateMergedPropsIfNeeded, hm, hc]

/-- Under checkMergedEquals, a reported merge change means the cache
moved to a shallow-unequal value. -/
theorem updateMergedPropsIfNeeded_changed_unequal (cfg : Config)
    (st : ConnectState) (hck : checkMergedEquals cfg = true)
    (h : (updateMergedPropsIfNeeded cfg st).changed = true) :
    shallowEqualOpt st.mergedProps (updateMergedPropsIfNeeded cfg st).state.mergedProps
      = false := by
  rw [updateMergedPropsIfNeeded_state_of_changed cfg st h]
  cases hm : st.mergedProps with
  | none => rfl
  | some m =>
    by_cases hc : (checkMergedEquals cfg
        && shallowEqual (computeMergedProps cfg st) m) = true
    · exfalso
      simp [updateMergedPropsIfNeeded, hm, hc] at h
    · have hc2 : shallowEqual (computeMergedProps cfg st) m = false := by
        rw [hck] at hc
        simpa using hc
      show shallowEqualOpt (some m) (some (computeMergedProps cfg st)) = false
      simp only [shallowEqualOpt]
      rw [shallowEqual_symm]
      exact hc2

/-! ## Counting fresh elements against merged-prop changes (the heart
of the pure re-render contract). -/

theorem newElemCount_append (a b : List Event) :
    newElemCount (a ++ b) = newElemCount a + newElemCount b := by
  simp [newElemCount, List.countP_append]

theorem renderApply_spec (renderedSnap : Option Elem)
    (s d o mrec : Bool) (ev12 : List Event) (mres : MergeRes)
    (hrs : renderedSnap.isSome = true)
    (hre : mres.state.renderedElement.isSome = true)
    (hev : newElemCount ev12 = 0)
    (hm0 : newElemCount mres.events = 0) :
    newElemCount (renderApply renderedSnap s d o mrec ev12 mres).events
      = (if mres.changed then 1 else 0) ∧
    (renderApply renderedSnap s d o mrec ev12 mres).state.mergedProps
      = mres.state.mergedProps ∧
    (renderApply renderedSnap s d o mrec ev12 mres).state.renderedElement.isSome
      = true := by
  unfold renderApply
  by_cases hc : (!mres.changed && renderedSnap.isSome) = true
  · have hch : mres.changed = false := by
      cases hb : mres.changed
      · rfl
      · rw [hb] at hc
        simp at hc
    rw [if_pos hc]
    refine ⟨?_, rfl, hre⟩
    rw [newElemCount_append, hev, hm0, hch]
    rfl
  · have hch : mres.changed = true := by
      cases hb : mres.changed
      · rw [hb, hrs] at hc
        simp at hc
      · rfl
    rw [if_neg hc]
    refine ⟨?_, rfl, rfl⟩
    rw [newElemCount_append, newElemCount_append, hev, hm0, hch]
    rfl

theorem renderFinish_count (cfg : Config) (renderedSnap : Option Elem)
    (s d o : Bool) (ev12 : List Event) (st2 : ConnectState)
    (hck : checkMergedEquals cfg = true)
    (hrs : renderedSnap.isSome = true)
    (hre : st2.renderedElement.isSome = true)
    (hev : newElemCount ev12 = 0) :
    newElemCount (renderFinish cfg renderedSnap s d o ev12 st2).events
      = mergedChangedFlag st2.mergedProps
          (renderFinish cfg renderedSnap s d o ev12 st2).state.mergedProps ∧
    (renderFinish cfg renderedSnap s d o ev12 st2).state.renderedElement.isSome
      = true := by
  unfold renderFinish
  by_cases hdo : (s || d || o) = true
  · rw [if_pos hdo]
    have hm0 : newElemCount (updateMergedPropsIfNeeded cfg st2).events = 0 := by
      rw [updateMergedPropsIfNeeded_events]
      rfl
    have hre2 : (updateMergedPropsIfNeeded cfg st2).state.renderedElement.isSome
        = true := by
      cases hch : (updateMergedPropsIfNeeded cfg st2).changed
      · rw [updateMergedPropsIfNeeded_state_of_not_changed cfg st2 hch]
        exact hre
      · rw [updateMergedPropsIfNeeded_state_of_changed cfg st2 hch]
        exact hre
    obtain ⟨hcount, hmerge, hsome⟩ := renderApply_spec renderedSnap s d o true
      ev12 (updateMergedPropsIfNeeded cfg st2) hrs hre2 hev hm0
    refine ⟨?_, hsome⟩
    rw [hcount, hmerge]
    cases hch : (updateMergedPropsIfNeeded cfg st2).changed
    · rw [updateMergedPropsIfNeeded_state_of_not_changed cfg st2 hch,
        mergedChangedFlag_refl]
      rfl
    · have := updateMergedPropsIfNeeded_changed_unequal cfg st2 hck hch
      unfold mergedChangedFlag
      rw [this]
      rfl
  · rw [if_neg hdo]
    obtain ⟨hcount, hmerge, hsome⟩ := renderApply_spec renderedSnap s d o false
      ev12 { changed := false, state := st2, events := [] } hrs hre hev rfl
    refine ⟨?_, hsome⟩
    rw [hcount, hmerge]
    rw [mergedChangedFlag_refl]
    rfl

theorem renderDispatchStage_count (cfg : Config) (renderedSnap : Option Elem)
    (o s shouldD : Bool) (ev1 : List Event) (st1 : ConnectState)
    (hck : checkMergedEquals cfg = true)
    (hrs : renderedSnap.isSome = true)
    (hre : st1.renderedElement.isSome = true)
    (hev : newElemCount ev1 = 0) :
    newElemCount (renderDispatchStage cfg renderedSnap o s shouldD ev1 st1).events
      = mergedChangedFlag st1.mergedProps
          (renderDispatchStage cfg renderedSnap o s shouldD ev1 st1).state.mergedProps ∧
    (renderDispatchStage cfg renderedSnap o s shouldD ev1 st1).state.renderedElement.isSome
      = true := by
  unfold renderDispatchStage renderDispatchApply
  by_cases hsd : shouldD = true
  · rw [if_pos hsd]
    obtain ⟨f1, f2, f3, f4, f5, f6, f7, f8, f9, f10, f11, f12, f13, f14, f15,
      f16, f17⟩ := updateDispatchPropsIfNeeded_frame cfg st1
    cases hr : (updateDispatchPropsIfNeeded cfg st1).result with
    | error e =>
      refine ⟨?_, by rw [f3]; exact hre⟩
      rw [f2, newElemCount_append, hev, f15, mergedChangedFlag_refl]
    | ok dChanged =>
      have hre2 : (updateDispatchPropsIfNeeded cfg st1).state.renderedElement.isSome
          = true := by
        rw [f3]
        exact hre
      have hev2 : newElemCount (ev1 ++ (updateDispatchPropsIfNeeded cfg st1).events)
          = 0 := by
        rw [newElemCount_append, hev, f15]
      obtain ⟨hcount, hsome⟩ := renderFinish_count cfg renderedSnap s dChanged o
        (ev1 ++ (updateDispatchPropsIfNeeded cfg st1).events)
        (updateDispatchPropsIfNeeded cfg st1).state hck hrs hre2 hev2
      refine ⟨?_, hsome⟩
      rw [hcount, f2]
  · rw [if_neg hsd]
    have h := renderFinish_count cfg renderedSnap s false o ev1 st1 hck hrs hre hev
    simpa using h

theorem renderMain_count (cfg : Config) (st0 : ConnectState)
    (o store pre : Bool) (renderedSnap : Option Elem)
    (hck : checkMergedEquals cfg = true)
    (hrs : renderedSnap.isSome = true)
    (hre : st0.renderedElement.isSome = true) :
    newElemCount (renderMain cfg st0 o store pre renderedSnap).events
      = mergedChangedFlag st0.mergedProps
          (renderMain cfg st0 o store pre renderedSnap).state.mergedProps ∧
    (renderMain cfg st0 o store pre renderedSnap).state.renderedElement.isSome
      = true := by
  unfold renderMain renderStateApply
  by_cases hp : pre = true
  · rw [if_pos hp]
    exact renderDispatchStage_count cfg renderedSnap o true _ [] st0 hck hrs hre rfl
  · rw [if_neg hp]
    by_cases hs : (if cfg.pure && renderedSnap.isSome then
        store || (o && st0.doStatePropsDependOnOwnProps) else true) = true
    · rw [if_pos hs]
      obtain ⟨f1, f2, f3, f4, f5, f6, f7, f8, f9, f10, f11, f12, f13, f14, f15,
        f16, f17⟩ := updateStatePropsIfNeeded_frame cfg st0
      cases hr : (updateStatePropsIfNeeded cfg st0).result with
      | error e =>
        refine ⟨?_, by rw [f3]; exact hre⟩
        rw [f2, f15, mergedChangedFlag_refl]
      | ok sChanged =>
        have hre2 : (updateStatePropsIfNeeded cfg st0).state.renderedElement.isSome
            = true := by
          rw [f3]
          exact hre
        obtain ⟨hcount, hsome⟩ := renderDispatchStage_count cfg renderedSnap o
          sChanged _ (updateStatePropsIfNeeded cfg st0).events
          (updateStatePropsIfNeeded cfg st0).state hck hrs hre2 f15
        refine ⟨?_, hsome⟩
        rw [hcount, f2]
    · rw [if_neg hs]
      exact renderDispatchStage_count cfg renderedSnap o false _ [] st0 hck hrs hre rfl

theorem render_count (cfg : Config) (st : ConnectState)
    (hck : checkMergedEquals cfg = true)
    (hre : st.renderedElement.isSome = true) :
    newElemCount (render cfg st).events
      = mergedChangedFlag st.mergedProps (render cfg st).state.mergedProps ∧
    (render cfg st).state.renderedElement.isSome = true := by
  unfold render
  cases herr : st.statePropsPrecalculationError with
  | some e =>
    refine ⟨?_, hre⟩
    show newElemCount [] = mergedChangedFlag st.mergedProps (resetFlags st).mergedProps
    rw [show (resetFlags st).mergedProps = st.mergedProps from rfl,
      mergedChangedFlag_refl]
    rfl
  | none =>
    have h := renderMain_count cfg (resetFlags st) st.haveOwnPropsChanged
      st.hasStoreStateChanged st.haveStatePropsBeenPrecalculated
      st.renderedElement hck hre hre
    exact h

theorem handleChangeTail_count (cfg : Config) (st1 : ConnectState)
    (ev : List Event) (v : Val)
    (hck : checkMergedEquals cfg = true)
    (hre : st1.renderedElement.isSome = true)
    (hev : newElemCount ev = 0) :
    newElemCount (handleChangeTail cfg st1 ev v).events
      = mergedChangedFlag st1.mergedProps
          (handleChangeTail cfg st1 ev v).state.mergedProps ∧
    (handleChangeTail cfg st1 ev v).state.renderedElement.isSome = true := by
  unfold handleChangeTail
  obtain ⟨hcount, hsome⟩ := render_count cfg
    { st1 with hasStoreStateChanged := true, recordedStoreState := v } hck hre
  refine ⟨?_, hsome⟩
  rw [newElemCount_append, hev, Nat.zero_add, hcount]

theorem receiveProps_frame (cfg : Config) (st : ConnectState) (p : Obj) :
    (receiveProps cfg st p).renderedElement = st.renderedElement ∧
    (receiveProps cfg st p).mergedProps = st.mergedProps := by
  unfold receiveProps componentWillReceiveProps
  split <;> exact ⟨rfl, rfl⟩

theorem step_count (cfg : Config) (st : ConnectState) (u : Update)
    (hck : checkMergedEquals cfg = true)
    (hre : st.renderedElement.isSome = true) :
    newElemCount (step cfg st u).events
      = mergedChangedFlag st.mergedProps (step cfg st u).state.mergedProps ∧
    (step cfg st u).state.renderedElement.isSome = true := by
  cases u with
  | ownProps p =>
    simp only [step]
    unfold stepOwnProps
    by_cases hscu : (!cfg.pure || (receiveProps cfg st p).haveOwnPropsChanged
        || (receiveProps cfg st p).hasStoreStateChanged) = true
    · rw [if_pos hscu]
      obtain ⟨hcount, hsome⟩ := render_count cfg (receiveProps cfg st p) hck
        (by rw [(receiveProps_frame cfg st p).1]; exact hre)
      refine ⟨?_, hsome⟩
      dsimp only
      rw [hcount, (receiveProps_frame cfg st p).2]
    · rw [if_neg hscu]
      refine ⟨?_, ?_⟩
      · dsimp only
        rw [(receiveProps_frame cfg st p).2, mergedChangedFlag_refl]
        rfl
      · dsimp only
        rw [(receiveProps_frame cfg st p).1]
        exact hre
  | notify v =>
    simp only [step]
    unfold stepNotify handleChange
    dsimp only
    by_cases h1 : (!st.subscribed) = true
    · rw [if_pos h1]
      exact ⟨by dsimp only; rw [mergedChangedFlag_refl]; rfl, hre⟩
    · rw [if_neg h1]
      by_cases h2 : (cfg.pure && (st.recordedStoreState == v)) = true
      · rw [if_pos h2]
        exact ⟨by dsimp only; rw [mergedChangedFlag_refl]; rfl, hre⟩
      · rw [if_neg h2]
        by_cases h3 : (cfg.pure && !st.doStatePropsDependOnOwnProps) = true
        · rw [if_pos h3]
          obtain ⟨f1, f2, f3, f4, f5, f6, f7, f8, f9, f10, f11, f12, f13, f14,
            f15, f16, f17⟩ :=
            updateStatePropsIfNeeded_frame cfg { st with storeCurrent := v }
          cases hr : (updateStatePropsIfNeeded cfg
              { st with storeCurrent := v }).result with
          | error e =>
            obtain ⟨hcount, hsome⟩ := handleChangeTail_count cfg
              { (updateStatePropsIfNeeded cfg { st with storeCurrent := v }).state with
                  statePropsPrecalculationError := some e,
                  haveStatePropsBeenPrecalculated := true }
              (updateStatePropsIfNeeded cfg { st with storeCurrent := v }).events v hck
              (by dsimp only; rw [f3]; exact hre) f15
            refine ⟨?_, hsome⟩
            rw [hcount]
            dsimp only
            rw [f2]
          | ok b =>
            cases b with
            | false =>
              refine ⟨?_, ?_⟩
              · dsimp only
                rw [f2, mergedChangedFlag_refl, f15]
              · dsimp only
                rw [f3]
                exact hre
            | true =>
              obtain ⟨hcount, hsome⟩ := handleChangeTail_count cfg
                { (updateStatePropsIfNeeded cfg { st with storeCurrent := v }).state with
                    haveStatePropsBeenPrecalculated := true }
                (updateStatePropsIfNeeded cfg { st with storeCurrent := v }).events v hck
                (by dsimp only; rw [f3]; exact hre) f15
              refine ⟨?_, hsome⟩
              rw [hcount]
              dsimp only
              rw [f2]
        · rw [if_neg h3]
          obtain ⟨hcount, hsome⟩ := handleChangeTail_count cfg
            { st with storeCurrent := v } [] v hck hre rfl
          exact ⟨by rw [hcount], hsome⟩

theorem runCounts_eq (cfg : Config) (us : List Update) :
    ∀ st : ConnectState, checkMergedEquals cfg = true →
      st.renderedElement.isSome = true →
      (runCounts cfg st us).1 = (runCounts cfg st us).2 := by
  induction us with
  | nil => intro st _ _; rfl
  | cons u us ih =>
    intro st hck hre
    obtain ⟨hc, hs⟩ := step_count cfg st u hck hre
    simp only [runCounts]
    rw [hc, ih (step cfg st u).state hck hs]

/-! ## Claim C1 -/

/-- C1 counterexample.  The claim says that with pure=true the number of
distinct rendered elements always equals the number of updates after
which MergedProps is shallow-unequal to its predecessor.  With the
default merge function and an own prop shadowed by the state partial
(own props a:1 -> a:2 under state partial a:5), one own-props update
produces one fresh rendered element while the merged props stayed
shallow-equal to their predecessor: 1 distinct rendered object against 0
shallow-unequal transitions, a redundant re-render. -/
theorem claim_C1_counterexample :
    (runCounts exCfgShadow (mount exCfgShadow 0 [("a", 1)]).state
        [Update.ownProps [("a", 2)]]).1 = 1 ∧
    (runCounts exCfgShadow (mount exCfgShadow 0 [("a", 1)]).state
        [Update.ownProps [("a", 2)]]).2 = 0 := by
  constructor <;> rfl

/-- C1 (amended): with pure=true and a non-default merge function
configured (so checkMergedEquals holds), for every finite sequence of
own-properties updates and store notifications processed by one mounted
instance (any state with a previously rendered element), the number of
distinct rendered-properties objects produced equals the number of
updates after which MergedProps is shallow-unequal to its predecessor —
never more and never fewer.  With the default merge function a redundant
re-render can occur when the overlay hides the changed input (see the
counterexample). -/
theorem claim_C1_amended (cfg : Config) (st : ConnectState) (us : List Update)
    (hp : cfg.pure = true) (hm : cfg.mergeProps.isSome = true)
    (hre : st.renderedElement.isSome = true) :
    (runCounts cfg st us).1 = (runCounts cfg st us).2 := by
  have hck : checkMergedEquals cfg = true := by
    unfold checkMergedEquals
    rw [hp, hm]
    rfl
  exact runCounts_eq cfg us st hck hre

/-- C1 amended witness: a concrete pure instance with a custom merge
function, run over a mixed update sequence. -/
theorem claim_C1_amended_witness :
    exCfgMerge.pure = true ∧ exCfgMerge.mergeProps.isSome = true ∧
    (mount exCfgMerge 0 [("id", 1)]).state.renderedElement.isSome = true ∧
    (runCounts exCfgMerge (mount exCfgMerge 0 [("id", 1)]).state
        [Update.notify 1, Update.ownProps [("id", 2)], Update.notify 1]).1
      = (runCounts exCfgMerge (mount exCfgMerge 0 [("id", 1)]).state
          [Update.notify 1, Update.ownProps [("id", 2)], Update.notify 1]).2 :=
  ⟨rfl, rfl, rfl, claim_C1_amended exCfgMerge (mount exCfgMerge 0 [("id", 1)]).state
    [Update.notify 1, Update.ownProps [("id", 2)], Update.notify 1] rfl rfl rfl⟩

/-! ## Claims C3 and C4: notification short-circuits -/

/-- C3: while subscribed on a pure instance, a notification whose fresh
store state is reference-identical to the recorded one returns
immediately: the state is untouched (only the store itself moved), no
mapping is invoked (no events) and no host update is requested. -/
theorem claim_C3 (cfg : Config) (st : ConnectState) (v : Val)
    (hp : cfg.pure = true) (hsub : st.subscribed = true)
    (hv : st.recordedStoreState = v) :
    stepNotify cfg st v
      = { state := { st with storeCurrent := v }, rendered := none,
          events := [] } := by
  unfold stepNotify handleChange
  dsimp only
  simp [hsub, hp, hv]

/-- C3 witness: two identical-reference notifications on a mounted
instance produce no render at all. -/
theorem claim_C3_witness :
    exCfgShadow.pure = true ∧
    (mount exCfgShadow 0 []).state.subscribed = true ∧
    (mount exCfgShadow 0 []).state.recordedStoreState = 0 ∧
    stepNotify exCfgShadow (mount exCfgShadow 0 []).state 0
      = { state := { (mount exCfgShadow 0 []).state with storeCurrent := 0 },
          rendered := none, events := [] } :=
  ⟨rfl, rfl, rfl, claim_C3 exCfgShadow (mount exCfgShadow 0 []).state 0 rfl rfl rfl⟩

/-- C4: on a pure instance whose resolved state mapping does not depend
on own props, a notification with a fresh store-state reference eagerly
recomputes the state partial inside the handler (exactly one resolved
state-mapping invocation, with only the store state), and when the
result is shallow-equal to the cached state partial the handler returns
without requesting a host update and without touching the instance
(setState is not even called, so the recorded store state stays
stale). -/
theorem claim_C4 (cfg : Config) (st : ConnectState) (v : Val) (f : MapFn)
    (sp0 sp1 : Obj)
    (hp : cfg.pure = true) (hsub : st.subscribed = true)
    (hne : (st.recordedStoreState == v) = false)
    (hdep : st.doStatePropsDependOnOwnProps = false)
    (hf : st.finalMapStateToProps = some f)
    (hrun : f.run v none = .ok sp1)
    (hsp : st.stateProps = some sp0)
    (heq : shallowEqual sp1 sp0 = true) :
    stepNotify cfg st v
      = { state := { st with storeCurrent := v }, rendered := none,
          events := [Event.callState v none] } := by
  unfold stepNotify handleChange
  simp [hsub, hp, hne, hdep, updateStatePropsIfNeeded, computeStateProps, hf,
    hrun, hsp, heq]

/-- C4 witness: a constant arity-1 state mapping with a fresh store
state reference skips the host update. -/
theorem claim_C4_witness :
    exCfgConst.pure = true ∧
    (mount exCfgConst 0 []).state.subscribed = true ∧
    ((mount exCfgConst 0 []).state.recordedStoreState == 1) = false ∧
    (mount exCfgConst 0 []).state.doStatePropsDependOnOwnProps = false ∧
    shallowEqual [("k", 7)] [("k", 7)] = true ∧
    stepNotify exCfgConst (mount exCfgConst 0 []).state 1
      = { state := { (mount exCfgConst 0 []).state with storeCurrent := 1 },
          rendered := none, events := [Event.callState 1 none] } :=
  ⟨rfl, rfl, rfl, rfl, rfl,
    claim_C4 exCfgConst (mount exCfgConst 0 []).state 1
      ⟨1, fun _ _ => Except.ok [("k", 7)]⟩ [("k", 7)] [("k", 7)]
      rfl rfl rfl rfl rfl rfl rfl rfl⟩

/-! ## Claims C9 and C10: the deferred-error path -/

/-- Full characterization of a notification whose eager state-partial
recomputation throws: the error is caught (the listener completes), the
host update still runs, the next render pass re-throws the error after
the flags were snapshotted and reset, and no cache field moves. -/
theorem stepNotify_throw (cfg : Config) (st : ConnectState) (v : Val) (f : MapFn)
    (e : Err)
    (hp : cfg.pure = true) (hsub : st.subscribed = true)
    (hne : (st.recordedStoreState == v) = false)
    (hdep : st.doStatePropsDependOnOwnProps = false)
    (hf : st.finalMapStateToProps = some f)
    (hrun : f.run v none = .error e) :
    stepNotify cfg st v
      = { state := { st with
                     storeCurrent := v,
                     recordedStoreState := v,
                     haveOwnPropsChanged := false,
                     hasStoreStateChanged := false,
                     haveStatePropsBeenPrecalculated := false,
                     statePropsPrecalculationError := none },
          rendered := some (.error e),
          events := [Event.callState v none] } := by
  unfold stepNotify handleChange handleChangeTail render resetFlags
  simp [hsub, hp, hne, hdep, updateStatePropsIfNeeded, computeStateProps, hf, hrun]

/-- C9: an exception thrown while eagerly recomputing the state partial
inside the notification handler is captured (the step completes and
emits exactly the one mapping invocation), the notification still
requests a host update (a render pass runs and setState recorded the new
store state), and the captured error is re-thrown at the start of that
next render pass, after the dirty flags were snapshotted and reset (the
final state carries no pending flags and no pending error). -/
theorem claim_C9 (cfg : Config) (st : ConnectState) (v : Val) (f : MapFn)
    (e : Err)
    (hp : cfg.pure = true) (hsub : st.subscribed = true)
    (hne : (st.recordedStoreState == v) = false)
    (hdep : st.doStatePropsDependOnOwnProps = false)
    (hf : st.finalMapStateToProps = some f)
    (hrun : f.run v none = .error e) :
    (stepNotify cfg st v).rendered = some (.error e) ∧
    (stepNotify cfg st v).state.recordedStoreState = v ∧
    (stepNotify cfg st v).state.haveOwnPropsChanged = false ∧
    (stepNotify cfg st v).state.hasStoreStateChanged = false ∧
    (stepNotify cfg st v).state.haveStatePropsBeenPrecalculated = false ∧
    (stepNotify cfg st v).state.statePropsPrecalculationError = none ∧
    (stepNotify cfg st v).events = [Event.callState v none] := by
  rw [stepNotify_throw cfg st v f e hp hsub hne hdep hf hrun]
  exact ⟨rfl, rfl, rfl, rfl, rfl, rfl, rfl⟩

/-- C9 witness: the throwing mapping of exCfgThrow on store state 1. -/
theorem claim_C9_witness :
    exCfgThrow.pure = true ∧
    (mount exCfgThrow 0 []).state.subscribed = true ∧
    ((mount exCfgThrow 0 []).state.recordedStoreState == 1) = false ∧
    (stepNotify exCfgThrow (mount exCfgThrow 0 []).state 1).rendered
      = some (.error 42) ∧
    (stepNotify exCfgThrow (mount exCfgThrow 0 []).state 1).state.statePropsPrecalculationError
      = none :=
  ⟨rfl, rfl, rfl,
    (claim_C9 exCfgThrow (mount exCfgThrow 0 []).state 1
      ⟨1, fun s _ => if s = 0 then Except.ok [("k", 7)] else Except.error 42⟩ 42
      rfl rfl rfl rfl rfl rfl).1,
    (claim_C9 exCfgThrow (mount exCfgThrow 0 []).state 1
      ⟨1, fun s _ => if s = 0 then Except.ok [("k", 7)] else Except.error 42⟩ 42
      rfl rfl rfl rfl rfl rfl).2.2.2.2.2.1⟩

/-- C10: when the state mapping throws during the eager recomputation
triggered by a store notification, the cached StateProps, DispatchProps
and MergedProps references (and the previous rendered element) are left
exactly as they were; the failure is only surfaced as the error of the
following render pass. -/
theorem claim_C10 (cfg : Config) (st : ConnectState) (v : Val) (f : MapFn)
    (e : Err)
    (hp : cfg.pure = true) (hsub : st.subscribed = true)
    (hne : (st.recordedStoreState == v) = false)
    (hdep : st.doStatePropsDependOnOwnProps = false)
    (hf : st.finalMapStateToProps = some f)
    (hrun : f.run v none = .error e) :
    (stepNotify cfg st v).state.stateProps = st.stateProps ∧
    (stepNotify cfg st v).state.dispatchProps = st.dispatchProps ∧
    (stepNotify cfg st v).state.mergedProps = st.mergedProps ∧
    (stepNotify cfg st v).state.renderedElement = st.renderedElement ∧
    (stepNotify cfg st v).rendered = some (.error e) := by
  rw [stepNotify_throw cfg st v f e hp hsub hne hdep hf hrun]
  exact ⟨rfl, rfl, rfl, rfl, rfl⟩

/-- C10 witness: after the throwing notification the caches still hold
the values computed at mount. -/
theorem claim_C10_witness :
    (mount exCfgThrow 0 []).state.stateProps = some [("k", 7)] ∧
    (stepNotify exCfgThrow (mount exCfgThrow 0 []).state 1).state.stateProps
      = (mount exCfgThrow 0 []).state.stateProps ∧
    (stepNotify exCfgThrow (mount exCfgThrow 0 []).state 1).state.mergedProps
      = (mount exCfgThrow 0 []).state.mergedProps ∧
    (stepNotify exCfgThrow (mount exCfgThrow 0 []).state 1).rendered
      = some (.error 42) :=
  ⟨rfl,
    (claim_C10 exCfgThrow (mount exCfgThrow 0 []).state 1
      ⟨1, fun s _ => if s = 0 then Except.ok [("k", 7)] else Except.error 42⟩ 42
      rfl rfl rfl rfl rfl rfl).1,
    (claim_C10 exCfgThrow (mount exCfgThrow 0 []).state 1
      ⟨1, fun s _ => if s = 0 then Except.ok [("k", 7)] else Except.error 42⟩ 42
      rfl rfl rfl rfl rfl rfl).2.2.1,
    (claim_C10 exCfgThrow (mount exCfgThrow 0 []).state 1
      ⟨1, fun s _ => if s = 0 then Except.ok [("k", 7)] else Except.error 42⟩ 42
      rfl rfl rfl rfl rfl rfl).2.2.2.2⟩

/-! ## Claim C5: the merged-props short-circuit of the render pass -/

theorem mergeCallCount_append (a b : List Event) :
    mergeCallCount (a ++ b) = mergeCallCount a + mergeCallCount b := by
  simp [mergeCallCount, List.countP_append]

theorem renderApply_c5 (rsnap : Option Elem) (s d o mrec : Bool)
    (ev12 : List Event) (mres : MergeRes)
    (hev : mergeCallCount ev12 = 0)
    (hmev : mergeCallCount mres.events = if mrec then 1 else 0) :
    (renderApply rsnap s d o mrec ev12 mres).sChanged = s ∧
    (renderApply rsnap s d o mrec ev12 mres).dChanged = d ∧
    (renderApply rsnap s d o mrec ev12 mres).ownSnap = o ∧
    (renderApply rsnap s d o mrec ev12 mres).mergeRecomputed = mrec ∧
    mergeCallCount (renderApply rsnap s d o mrec ev12 mres).events
      = (if mrec then 1 else 0) ∧
    (mres.changed = false → rsnap.isSome = true →
      (renderApply rsnap s d o mrec ev12 mres).output = .ok (rsnap.getD default) ∧
      (renderApply rsnap s d o mrec ev12 mres).state = mres.state) := by
  unfold renderApply
  by_cases hc : (!mres.changed && rsnap.isSome) = true
  · rw [if_pos hc]
    refine ⟨rfl, rfl, rfl, rfl, ?_, fun _ _ => ⟨rfl, rfl⟩⟩
    rw [mergeCallCount_append, hev, hmev]
    omega
  · rw [if_neg hc]
    refine ⟨rfl, rfl, rfl, rfl, ?_, ?_⟩
    · rw [mergeCallCount_append, mergeCallCount_append, hev, hmev]
      have : mergeCallCount [Event.newElement mres.state.nextElemId] = 0 := rfl
      rw [this]
      omega
    · intro hch hrs
      exfalso
      rw [hch, hrs] at hc
      exact hc rfl

theorem renderFinish_c5 (cfg : Config) (rsnap : Option Elem) (s d o : Bool)
    (ev12 : List Event) (st2 : ConnectState)
    (hev : mergeCallCount ev12 = 0) :
    (renderFinish cfg rsnap s d o ev12 st2).sChanged = s ∧
    (renderFinish cfg rsnap s d o ev12 st2).dChanged = d ∧
    (renderFinish cfg rsnap s d o ev12 st2).ownSnap = o ∧
    (renderFinish cfg rsnap s d o ev12 st2).mergeRecomputed = (s || d || o) ∧
    mergeCallCount (renderFinish cfg rsnap s d o ev12 st2).events
      = (if (s || d || o) then 1 else 0) ∧
    ((s || d || o) = false → rsnap.isSome = true →
      (renderFinish cfg rsnap s d o ev12 st2).output = .ok (rsnap.getD default) ∧
      (renderFinish cfg rsnap s d o ev12 st2).state = st2) := by
  unfold renderFinish
  cases hdo : (s || d || o) with
  | true =>
    simp only [if_true]
    have hmev : mergeCallCount (updateMergedPropsIfNeeded cfg st2).events
        = if true then 1 else 0 := by
      rw [updateMergedPropsIfNeeded_events]
      rfl
    obtain ⟨a1, a2, a3, a4, a5, a6⟩ := renderApply_c5 rsnap s d o true ev12
      (updateMergedPropsIfNeeded cfg st2) hev hmev
    exact ⟨a1, a2, a3, a4, a5, fun h => absurd h (by simp)⟩
  | false =>
    simp only [Bool.false_eq_true, if_false]
    obtain ⟨a1, a2, a3, a4, a5, a6⟩ := renderApply_c5 rsnap s d o false ev12
      { changed := false, state := st2, events := [] } hev rfl
    exact ⟨a1, a2, a3, a4, a5, fun _ h2 => a6 rfl h2⟩

theorem renderDispatchApply_trivial (cfg : Config) (rsnap : Option Elem)
    (o s : Bool) (ev1 : List Event) (st1 : ConnectState) :
    renderDispatchApply cfg rsnap o s ev1
        { state := st1, events := [], result := .ok false }
      = renderFinish cfg rsnap s false o ev1 st1 := by
  unfold renderDispatchApply
  dsimp only
  rw [List.append_nil]

theorem renderDispatchStage_c5 (cfg : Config) (rsnap : Option Elem)
    (o s shouldD : Bool) (ev1 : List Event) (st1 : ConnectState)
    (hev : mergeCallCount ev1 = 0) :
    (renderDispatchStage cfg rsnap o s shouldD ev1 st1).sChanged = s ∧
    (renderDispatchStage cfg rsnap o s shouldD ev1 st1).ownSnap = o ∧
    ((renderDispatchStage cfg rsnap o s shouldD ev1 st1).mergeRecomputed = true →
      ((renderDispatchStage cfg rsnap o s shouldD ev1 st1).sChanged
        || (renderDispatchStage cfg rsnap o s shouldD ev1 st1).dChanged
        || (renderDispatchStage cfg rsnap o s shouldD ev1 st1).ownSnap) = true) ∧
    mergeCallCount (renderDispatchStage cfg rsnap o s shouldD ev1 st1).events
      = (if (renderDispatchStage cfg rsnap o s shouldD ev1 st1).mergeRecomputed
          then 1 else 0) ∧
    (((renderDispatchStage cfg rsnap o s shouldD ev1 st1).sChanged
        || (renderDispatchStage cfg rsnap o s shouldD ev1 st1).dChanged
        || (renderDispatchStage cfg rsnap o s shouldD ev1 st1).ownSnap) = false →
      (renderDispatchStage cfg rsnap o s shouldD ev1 st1).output.toOption.isSome = true →
      rsnap.isSome = true →
      (renderDispatchStage cfg rsnap o s shouldD ev1 st1).output
        = .ok (rsnap.getD default) ∧
      (renderDispatchStage cfg rsnap o s shouldD ev1 st1).state.mergedProps
        = st1.mergedProps) := by
  unfold renderDispatchStage
  by_cases hsd : shouldD = true
  · rw [if_pos hsd]
    obtain ⟨f1, f2, f3, f4, f5, f6, f7, f8, f9, f10, f11, f12, f13, f14, f15,
      f16, f17⟩ := updateDispatchPropsIfNeeded_frame cfg st1
    unfold renderDispatchApply
    cases hr : (updateDispatchPropsIfNeeded cfg st1).result with
    | error e =>
      refine ⟨rfl, rfl, fun h => absurd h (by simp), ?_, ?_⟩
      · show mergeCallCount (ev1 ++ (updateDispatchPropsIfNeeded cfg st1).events)
          = if false then 1 else 0
        rw [mergeCallCount_append, hev, f16]
        rfl
      · intro _ hok _
        exfalso
        simp [Except.toOption] at hok
    | ok dChanged =>
      have hev2 : mergeCallCount (ev1 ++ (updateDispatchPropsIfNeeded cfg st1).events)
          = 0 := by
        rw [mergeCallCount_append, hev, f16]
      obtain ⟨a1, a2, a3, a4, a5, a6⟩ := renderFinish_c5 cfg rsnap s dChanged o
        (ev1 ++ (updateDispatchPropsIfNeeded cfg st1).events)
        (updateDispatchPropsIfNeeded cfg st1).state hev2
      refine ⟨a1, a3, ?_, ?_, ?_⟩
      · intro hm
        rw [a1, a2, a3]
        rw [a4] at hm
        exact hm
      · rw [a4, a5]
      · intro hfl hok hrs
        rw [a1, a2, a3] at hfl
        obtain ⟨b1, b2⟩ := a6 hfl hrs
        rw [b1, b2]
        exact ⟨rfl, f2⟩
  · rw [if_neg hsd, renderDispatchApply_trivial]
    obtain ⟨a1, a2, a3, a4, a5, a6⟩ := renderFinish_c5 cfg rsnap s false o ev1 st1 hev
    refine ⟨a1, a3, ?_, ?_, ?_⟩
    · intro hm
      rw [a1, a2, a3]
      rw [a4] at hm
      exact hm
    · rw [a4, a5]
    · intro hfl hok hrs
      rw [a1, a2, a3] at hfl
      obtain ⟨b1, b2⟩ := a6 hfl hrs
      rw [b1, b2]
      exact ⟨rfl, rfl⟩

theorem renderMain_c5 (cfg : Config) (st0 : ConnectState) (o store pre : Bool)
    (rsnap : Option Elem) :
    (renderMain cfg st0 o store pre rsnap).ownSnap = o ∧
    ((renderMain cfg st0 o store pre rsnap).mergeRecomputed = true →
      ((renderMain cfg st0 o store pre rsnap).sChanged
        || (renderMain cfg st0 o store pre rsnap).dChanged
        || (renderMain cfg st0 o store pre rsnap).ownSnap) = true) ∧
    mergeCallCount (renderMain cfg st0 o store pre rsnap).events
      = (if (renderMain cfg st0 o store pre rsnap).mergeRecomputed then 1 else 0) ∧
    (((renderMain cfg st0 o store pre rsnap).sChanged
        || (renderMain cfg st0 o store pre rsnap).dChanged
        || (renderMain cfg st0 o store pre rsnap).ownSnap) = false →
      (renderMain cfg st0 o store pre rsnap).output.toOption.isSome = true →
      rsnap.isSome = true →
      (renderMain cfg st0 o store pre rsnap).output = .ok (rsnap.getD default) ∧
      (renderMain cfg st0 o store pre rsnap).state.mergedProps
        = st0.mergedProps) := by
  unfold renderMain renderStateApply
  by_cases hp : pre = true
  · rw [if_pos hp]
    obtain ⟨a1, a2, a3, a4, a5⟩ := renderDispatchStage_c5 cfg rsnap o true
      (if cfg.pure && rsnap.isSome then o && st0.doDispatchPropsDependOnOwnProps
       else true) [] st0 rfl
    exact ⟨a2, a3, a4, a5⟩
  · rw [if_neg hp]
    by_cases hs : (if cfg.pure && rsnap.isSome then
        store || (o && st0.doStatePropsDependOnOwnProps) else true) = true
    · rw [if_pos hs]
      obtain ⟨f1, f2, f3, f4, f5, f6, f7, f8, f9, f10, f11, f12, f13, f14, f15,
        f16, f17⟩ := updateStatePropsIfNeeded_frame cfg st0
      cases hr : (updateStatePropsIfNeeded cfg st0).result with
      | error e =>
        refine ⟨rfl, fun h => absurd h (by simp), ?_, ?_⟩
        · show mergeCallCount (updateStatePropsIfNeeded cfg st0).events
            = if false then 1 else 0
          rw [f16]
          rfl
        · intro _ hok _
          exfalso
          simp [Except.toOption] at hok
      | ok sChanged =>
        obtain ⟨a1, a2, a3, a4, a5⟩ := renderDispatchStage_c5 cfg rsnap o sChanged
          (if cfg.pure && rsnap.isSome then o && st0.doDispatchPropsDependOnOwnProps
           else true) (updateStatePropsIfNeeded cfg st0).events
          (updateStatePropsIfNeeded cfg st0).state f16
        refine ⟨a2, a3, a4, ?_⟩
        intro hfl hok hrs
        obtain ⟨b1, b2⟩ := a5 hfl hok hrs
        rw [b1, b2]
        exact ⟨rfl, f2⟩
    · rw [if_neg hs]
      obtain ⟨a1, a2, a3, a4, a5⟩ := renderDispatchStage_c5 cfg rsnap o false
        (if cfg.pure && rsnap.isSome then o && st0.doDispatchPropsDependOnOwnProps
         else true) [] st0 rfl
      exact ⟨a2, a3, a4, a5⟩

/-- C5: during a render pass, the merged props are recomputed (the merge
function invoked) only if at least one of the state partial, the
dispatch partial, or the own props changed in that pass; and when none
changed while a previously rendered element exists (and the pass did not
throw), that very element is returned as the identical object, the
merged-props cache is untouched, and the merge function is not
invoked. -/
theorem claim_C5 (cfg : Config) (st : ConnectState) :
    ((render cfg st).mergeRecomputed = true →
      ((render cfg st).sChanged || (render cfg st).dChanged
        || (render cfg st).ownSnap) = true) ∧
    (mergeCallCount (render cfg st).events
      = if (render cfg st).mergeRecomputed then 1 else 0) ∧
    (∀ e : Elem, st.renderedElement = some e →
      ((render cfg st).sChanged || (render cfg st).dChanged
        || (render cfg st).ownSnap) = false →
      (render cfg st).output.toOption.isSome = true →
      (render cfg st).output = .ok e ∧
      (render cfg st).state.mergedProps = st.mergedProps ∧
      mergeCallCount (render cfg st).events = 0) := by
  unfold render
  cases herr : st.statePropsPrecalculationError with
  | some e =>
    refine ⟨fun h => absurd h (by simp), rfl, ?_⟩
    intro e2 h1 h2 h3
    exfalso
    simp [Except.toOption] at h3
  | none =>
    obtain ⟨a1, a2, a3, a4⟩ := renderMain_c5 cfg (resetFlags st)
      st.haveOwnPropsChanged st.hasStoreStateChanged
      st.haveStatePropsBeenPrecalculated st.renderedElement
    refine ⟨a2, a3, ?_⟩
    intro e h1 h2 h3
    have hrs : st.renderedElement.isSome = true := by
      rw [h1]
      rfl
    obtain ⟨b1, b2⟩ := a4 h2 h3 hrs
    have hmr : (renderMain cfg (resetFlags st) st.haveOwnPropsChanged
        st.hasStoreStateChanged st.haveStatePropsBeenPrecalculated
        st.renderedElement).mergeRecomputed = false := by
      cases hb : (renderMain cfg (resetFlags st) st.haveOwnPropsChanged
          st.hasStoreStateChanged st.haveStatePropsBeenPrecalculated
          st.renderedElement).mergeRecomputed
      · rfl
      · rw [a2 hb] at h2
        exact absurd h2 (by simp)
    refine ⟨?_, b2, ?_⟩
    · rw [b1, h1]
      rfl
    · rw [a3, hmr]
      rfl

/-- C5 witness: a mounted instance re-rendered with nothing changed
returns the previously rendered element itself. -/
theorem claim_C5_witness :
    (mount exCfgShadow 0 []).state.renderedElement
      = some (0, [("a", 5), ("dispatch", 7)]) ∧
    ((render exCfgShadow (mount exCfgShadow 0 []).state).sChanged
      || (render exCfgShadow (mount exCfgShadow 0 []).state).dChanged
      || (render exCfgShadow (mount exCfgShadow 0 []).state).ownSnap) = false ∧
    (render exCfgShadow (mount exCfgShadow 0 []).state).output
      = .ok (0, [("a", 5), ("dispatch", 7)]) ∧
    mergeCallCount (render exCfgShadow (mount exCfgShadow 0 []).state).events
      = 0 :=
  ⟨rfl, rfl,
    ((claim_C5 exCfgShadow (mount exCfgShadow 0 []).state).2.2
      (0, [("a", 5), ("dispatch", 7)]) rfl rfl rfl).1,
    ((claim_C5 exCfgShadow (mount exCfgShadow 0 []).state).2.2
      (0, [("a", 5), ("dispatch", 7)]) rfl rfl rfl).2.2⟩

/-! ## Claim C2: pure=false -/

/-- C2 counterexample.  The claim says pure=false disables all
shallow-equality short-circuiting so every notification re-renders.  On
an impure mounted instance with a constant state mapping, a store
notification recomputes both partials (one state call, one dispatch
call) yet the merged props are not recomputed and the previous element
is returned: no new element is produced, so a shallow-equality check did
suppress the re-render even with pure=false. -/
theorem claim_C2_counterexample :
    exCfgImpure.pure = false ∧
    (stepNotify exCfgImpure (mount exCfgImpure 0 []).state 1).rendered
      = some (.ok (0, [("dispatch", 7)])) ∧
    newElemCount (stepNotify exCfgImpure (mount exCfgImpure 0 []).state 1).events
      = 0 ∧
    stateCallCount (stepNotify exCfgImpure (mount exCfgImpure 0 []).state 1).events
      = 1 ∧
    dispatchCallCount (stepNotify exCfgImpure (mount exCfgImpure 0 []).state 1).events
      = 1 ∧
    mergeCallCount (stepNotify exCfgImpure (mount exCfgImpure 0 []).state 1).events
      = 0 :=
  ⟨rfl, rfl, rfl, rfl, rfl, rfl⟩

/-- C2 (amended): with pure=false, every own-properties update and every
store notification recomputes StateProps and DispatchProps (exactly one
invocation of each resolved mapping); every own-properties update also
recomputes MergedProps and produces a new rendered output; a store
notification produces a new rendered output only when the recomputed
StateProps or DispatchProps is shallow-unequal to its cached
predecessor — when both are shallow-equal, the MergedProps recomputation
is skipped and the previous rendered output is returned (the per-partial
shallow-equality short-circuits of updateStatePropsIfNeeded and
updateDispatchPropsIfNeeded are not disabled by pure=false). -/
theorem claim_C2_amended (cfg : Config) (st : ConnectState) (f g : MapFn)
    (e : Elem) (sp dp mp : Obj)
    (hp : cfg.pure = false)
    (hsub : st.subscribed = true)
    (hofl : st.haveOwnPropsChanged = false)
    (hsfl : st.hasStoreStateChanged = false)
    (hpre : st.haveStatePropsBeenPrecalculated = false)
    (herr : st.statePropsPrecalculationError = none)
    (hre : st.renderedElement = some e)
    (hf : st.finalMapStateToProps = some f)
    (hg : st.finalMapDispatchToProps = some g)
    (hsp : st.stateProps = some sp)
    (hdp : st.dispatchProps = some dp)
    (hmp : st.mergedProps = some mp) :
    (∀ p sp2 dp2,
      f.run st.storeCurrent
          (if st.doStatePropsDependOnOwnProps then some p else none) = .ok sp2 →
      g.run cfg.dispatchVal
          (if st.doDispatchPropsDependOnOwnProps then some p else none) = .ok dp2 →
      stateCallCount (stepOwnProps cfg st p).events = 1 ∧
      dispatchCallCount (stepOwnProps cfg st p).events = 1 ∧
      mergeCallCount (stepOwnProps cfg st p).events = 1 ∧
      newElemCount (stepOwnProps cfg st p).events = 1) ∧
    (∀ v sp2 dp2,
      f.run v
          (if st.doStatePropsDependOnOwnProps then some st.props else none) = .ok sp2 →
      g.run cfg.dispatchVal
          (if st.doDispatchPropsDependOnOwnProps then some st.props else none) = .ok dp2 →
      stateCallCount (stepNotify cfg st v).events = 1 ∧
      dispatchCallCount (stepNotify cfg st v).events = 1 ∧
      ((shallowEqual sp2 sp && shallowEqual dp2 dp) = true →
        newElemCount (stepNotify cfg st v).events = 0 ∧
        mergeCallCount (stepNotify cfg st v).events = 0 ∧
        (stepNotify cfg st v).rendered = some (.ok e)) ∧
      ((shallowEqual sp2 sp && shallowEqual dp2 dp) = false →
        newElemCount (stepNotify cfg st v).events = 1 ∧
        mergeCallCount (stepNotify cfg st v).events = 1)) := by
  constructor
  · intro p sp2 dp2 hrs hrd
    by_cases hA : shallowEqual sp2 sp = true <;>
      by_cases hB : shallowEqual dp2 dp = true <;>
      (unfold stepOwnProps receiveProps componentWillReceiveProps render renderMain
         renderStateApply renderDispatchStage renderDispatchApply renderFinish
         renderApply;
       simp [hp, hsub, hofl, hsfl, hpre, herr, hre, hf, hg, hsp, hdp, hmp, hrs,
         hrd, hA, hB, updateStatePropsIfNeeded, computeStateProps,
         updateDispatchPropsIfNeeded, computeDispatchProps,
         updateMergedPropsIfNeeded, resetFlags, checkMergedEquals,
         stateCallCount, dispatchCallCount, mergeCallCount, newElemCount])
  · intro v sp2 dp2 hrs hrd
    by_cases hA : shallowEqual sp2 sp = true <;>
      by_cases hB : shallowEqual dp2 dp = true <;>
      (unfold stepNotify handleChange handleChangeTail render renderMain
         renderStateApply renderDispatchStage renderDispatchApply renderFinish
         renderApply;
       simp [hp, hsub, hofl, hsfl, hpre, herr, hre, hf, hg, hsp, hdp, hmp, hrs,
         hrd, hA, hB, updateStatePropsIfNeeded, computeStateProps,
         updateDispatchPropsIfNeeded, computeDispatchProps,
         updateMergedPropsIfNeeded, resetFlags, checkMergedEquals,
         stateCallCount, dispatchCallCount, mergeCallCount, newElemCount])

/-- C2 amended witness: the impure constant-mapping instance, applied at
a store notification whose recomputed partials are shallow-equal. -/
theorem claim_C2_amended_witness :
    exCfgImpure.pure = false ∧
    (mount exCfgImpure 0 []).state.subscribed = true ∧
    (stateCallCount (stepNotify exCfgImpure (mount exCfgImpure 0 []).state 1).events
        = 1 ∧
      dispatchCallCount (stepNotify exCfgImpure (mount exCfgImpure 0 []).state 1).events
        = 1 ∧
      ((shallowEqual [] [] && shallowEqual [("dispatch", 7)] [("dispatch", 7)]) = true →
        newElemCount (stepNotify exCfgImpure (mount exCfgImpure 0 []).state 1).events
          = 0 ∧
        mergeCallCount (stepNotify exCfgImpure (mount exCfgImpure 0 []).state 1).events
          = 0 ∧
        (stepNotify exCfgImpure (mount exCfgImpure 0 []).state 1).rendered
          = some (.ok (0, [("dispatch", 7)]))) ∧
      ((shallowEqual [] [] && shallowEqual [("dispatch", 7)] [("dispatch", 7)]) = false →
        newElemCount (stepNotify exCfgImpure (mount exCfgImpure 0 []).state 1).events
          = 1 ∧
        mergeCallCount (stepNotify exCfgImpure (mount exCfgImpure 0 []).state 1).events
          = 1)) :=
  ⟨rfl, rfl,
    (claim_C2_amended exCfgImpure (mount exCfgImpure 0 []).state
      ⟨1, fun _ _ => Except.ok []⟩ ⟨1, fun d _ => Except.ok [("dispatch", d)]⟩
      (0, [("dispatch", 7)]) [] [("dispatch", 7)] [("dispatch", 7)]
      rfl rfl rfl rfl rfl rfl rfl rfl rfl rfl rfl rfl).2
      1 [] [("dispatch", 7)] rfl rfl⟩

/-! ## Claim C8: when the merged result is compared -/

/-- C8 counterexample.  The claim says the recomputed merged props are
shallow-compared against the cache if and only if a non-default merge
function is configured.  With a non-default merge function but
pure=false, the comparison is skipped: even though the recomputed merged
props are shallow-equal to the cache, the recomputation reports
changed. -/
theorem claim_C8_counterexample :
    exCfgImpureMerge.mergeProps.isSome = true ∧
    exCfgImpureMerge.pure = false ∧
    exStMergedCache.mergedProps = some [("m", 1)] ∧
    shallowEqual (computeMergedProps exCfgImpureMerge exStMergedCache)
      [("m", 1)] = true ∧
    (updateMergedPropsIfNeeded exCfgImpureMerge exStMergedCache).changed = true :=
  ⟨rfl, rfl, rfl, rfl, rfl⟩

/-- C8 (amended): the recomputed MergedProps is shallow-compared against
the cached MergedProps — i.e. the recomputation can report no change —
if and only if pure=true AND a non-default merge function is configured
(checkMergedEquals); otherwise (default merge function, or pure=false)
the comparison is skipped and every recomputation reports changed. -/
theorem claim_C8_amended (cfg : Config) (st : ConnectState) (m : Obj)
    (hm : st.mergedProps = some m) :
    ((updateMergedPropsIfNeeded cfg st).changed = false ↔
      (cfg.pure = true ∧ cfg.mergeProps.isSome = true ∧
        shallowEqual (computeMergedProps cfg st) m = true)) := by
  simp only [updateMergedPropsIfNeeded, hm]
  by_cases hc : (checkMergedEquals cfg
      && shallowEqual (computeMergedProps cfg st) m) = true
  · rw [if_pos hc]
    simp only [checkMergedEquals, Bool.and_eq_true] at hc
    exact ⟨fun _ => ⟨hc.1.1, hc.1.2, hc.2⟩, fun _ => rfl⟩
  · rw [if_neg hc]
    constructor
    · intro h
      exact absurd h (by simp)
    · rintro ⟨h1, h2, h3⟩
      exact absurd (by simp [checkMergedEquals, h1, h2, h3]) hc

/-- C8 amended witness: with pure=true and the non-default constant
merge function, the shallow-equal recomputation reports no change. -/
theorem claim_C8_amended_witness :
    ((updateMergedPropsIfNeeded exCfgPureMerge exStMergedCache).changed = false ↔
      (exCfgPureMerge.pure = true ∧ exCfgPureMerge.mergeProps.isSome = true ∧
        shallowEqual (computeMergedProps exCfgPureMerge exStMergedCache)
          [("m", 1)] = true)) :=
  claim_C8_amended exCfgPureMerge exStMergedCache [("m", 1)] rfl

/-! ## Claims C6 and C7: the installed mapping, its arity-derived
dependency flag, and the arguments every later invocation receives. -/

theorem updateStatePropsIfNeeded_configured (cfg : Config) (st : ConnectState)
    (f : MapFn) (hs : st.finalMapStateToProps = some f) :
    (updateStatePropsIfNeeded cfg st).state.finalMapStateToProps = some f ∧
    (updateStatePropsIfNeeded cfg st).state.doStatePropsDependOnOwnProps
      = st.doStatePropsDependOnOwnProps ∧
    (updateStatePropsIfNeeded cfg st).events
      = [Event.callState st.storeCurrent
          (if st.doStatePropsDependOnOwnProps then some st.props else none)] := by
  unfold updateStatePropsIfNeeded computeStateProps
  rw [hs]
  dsimp only
  repeat' split
  all_goals exact ⟨hs, rfl, rfl⟩

theorem updateDispatchPropsIfNeeded_configured (cfg : Config) (st : ConnectState)
    (g : MapFn) (hd : st.finalMapDispatchToProps = some g) :
    (updateDispatchPropsIfNeeded cfg st).state.finalMapDispatchToProps = some g ∧
    (updateDispatchPropsIfNeeded cfg st).state.doDispatchPropsDependOnOwnProps
      = st.doDispatchPropsDependOnOwnProps ∧
    (updateDispatchPropsIfNeeded cfg st).events
      = [Event.callDispatch cfg.dispatchVal
          (if st.doDispatchPropsDependOnOwnProps then some st.props else none)] := by
  unfold updateDispatchPropsIfNeeded computeDispatchProps
  rw [hd]
  dsimp only
  repeat' split
  all_goals exact ⟨hd, rfl, rfl⟩

theorem updateMergedPropsIfNeeded_config_frame (cfg : Config) (st : ConnectState) :
    (updateMergedPropsIfNeeded cfg st).state.finalMapStateToProps
      = st.finalMapStateToProps ∧
    (updateMergedPropsIfNeeded cfg st).state.doStatePropsDependOnOwnProps
      = st.doStatePropsDependOnOwnProps ∧
    (updateMergedPropsIfNeeded cfg st).state.finalMapDispatchToProps
      = st.finalMapDispatchToProps ∧
    (updateMergedPropsIfNeeded cfg st).state.doDispatchPropsDependOnOwnProps
      = st.doDispatchPropsDependOnOwnProps := by
  cases hch : (updateMergedPropsIfNeeded cfg st).changed
  · rw [updateMergedPropsIfNeeded_state_of_not_changed cfg st hch]
    exact ⟨rfl, rfl, rfl, rfl⟩
  · rw [updateMergedPropsIfNeeded_state_of_changed cfg st hch]
    exact ⟨rfl, rfl, rfl, rfl⟩

theorem eventRespects_state_arg (dS dD : Bool) (v : Val) (p : Obj) :
    eventRespects dS dD (Event.callState v (if dS then some p else none)) = true := by
  cases dS <;> rfl

theorem eventRespects_dispatch_arg (dS dD : Bool) (v : Val) (p : Obj) :
    eventRespects dS dD (Event.callDispatch v (if dD then some p else none)) = true := by
  cases dD <;> rfl

theorem all_eventRespects_append (dS dD : Bool) (a b : List Event)
    (ha : a.all (eventRespects dS dD) = true)
    (hb : b.all (eventRespects dS dD) = true) :
    (a ++ b).all (eventRespects dS dD) = true := by
  rw [List.all_append, ha, hb]
  rfl

theorem renderApply_respect (rsnap : Option Elem) (s d o mrec : Bool)
    (ev12 : List Event) (mres : MergeRes) (dS dD : Bool)
    (hev : ev12.all (eventRespects dS dD) = true)
    (hm : mres.events.all (eventRespects dS dD) = true) :
    (renderApply rsnap s d o mrec ev12 mres).events.all (eventRespects dS dD)
      = true ∧
    (renderApply rsnap s d o mrec ev12 mres).state.finalMapStateToProps
      = mres.state.finalMapStateToProps ∧
    (renderApply rsnap s d o mrec ev12 mres).state.doStatePropsDependOnOwnProps
      = mres.state.doStatePropsDependOnOwnProps ∧
    (renderApply rsnap s d o mrec ev12 mres).state.finalMapDispatchToProps
      = mres.state.finalMapDispatchToProps ∧
    (renderApply rsnap s d o mrec ev12 mres).state.doDispatchPropsDependOnOwnProps
      = mres.state.doDispatchPropsDependOnOwnProps := by
  unfold renderApply
  split
  · exact ⟨all_eventRespects_append dS dD ev12 mres.events hev hm, rfl, rfl, rfl, rfl⟩
  · refine ⟨?_, rfl, rfl, rfl, rfl⟩
    exact all_eventRespects_append dS dD _ _
      (all_eventRespects_append dS dD ev12 mres.events hev hm) rfl

theorem renderFinish_respect (cfg : Config) (rsnap : Option Elem)
    (s d o : Bool) (ev12 : List Event) (st2 : ConnectState) (dS dD : Bool)
    (hev : ev12.all (eventRespects dS dD) = true) :
    (renderFinish cfg rsnap s d o ev12 st2).events.all (eventRespects dS dD)
      = true ∧
    (renderFinish cfg rsnap s d o ev12 st2).state.finalMapStateToProps
      = st2.finalMapStateToProps ∧
    (renderFinish cfg rsnap s d o ev12 st2).state.doStatePropsDependOnOwnProps
      = st2.doStatePropsDependOnOwnProps ∧
    (renderFinish cfg rsnap s d o ev12 st2).state.finalMapDispatchToProps
      = st2.finalMapDispatchToProps ∧
    (renderFinish cfg rsnap s d o ev12 st2).state.doDispatchPropsDependOnOwnProps
      = st2.doDispatchPropsDependOnOwnProps := by
  unfold renderFinish
  obtain ⟨m1, m2, m3, m4⟩ := updateMergedPropsIfNeeded_config_frame cfg st2
  split
  · have hm : (updateMergedPropsIfNeeded cfg st2).events.all (eventRespects dS dD)
        = true := by
      rw [updateMergedPropsIfNeeded_events]
      rfl
    obtain ⟨a1, a2, a3, a4, a5⟩ := renderApply_respect rsnap s d o true ev12
      (updateMergedPropsIfNeeded cfg st2) dS dD hev hm
    exact ⟨a1, by rw [a2, m1], by rw [a3, m2], by rw [a4, m3], by rw [a5, m4]⟩
  · obtain ⟨a1, a2, a3, a4, a5⟩ := renderApply_respect rsnap s d o false ev12
      { changed := false, state := st2, events := [] } dS dD hev rfl
    exact ⟨a1, a2, a3, a4, a5⟩

theorem renderDispatchStage_respect (cfg : Config) (rsnap : Option Elem)
    (o s shouldD : Bool) (ev1 : List Event) (st1 : ConnectState)
    (g : MapFn) (dS dD : Bool)
    (hev : ev1.all (eventRespects dS dD) = true)
    (hd : st1.finalMapDispatchToProps = some g)
    (hdd : st1.doDispatchPropsDependOnOwnProps = dD) :
    (renderDispatchStage cfg rsnap o s shouldD ev1 st1).events.all
      (eventRespects dS dD) = true ∧
    (renderDispatchStage cfg rsnap o s shouldD ev1 st1).state.finalMapStateToProps
      = st1.finalMapStateToProps ∧
    (renderDispatchStage cfg rsnap o s shouldD ev1 st1).state.doStatePropsDependOnOwnProps
      = st1.doStatePropsDependOnOwnProps ∧
    (renderDispatchStage cfg rsnap o s shouldD ev1 st1).state.finalMapDispatchToProps
      = some g ∧
    (renderDispatchStage cfg rsnap o s shouldD ev1 st1).state.doDispatchPropsDependOnOwnProps
      = dD := by
  unfold renderDispatchStage
  by_cases hsd : shouldD = true
  · rw [if_pos hsd]
    obtain ⟨f1, f2, f3, f4, f5, f6, f7, f8, f9, f10, f11, f12, f13, f14, f15,
      f16, f17⟩ := updateDispatchPropsIfNeeded_frame cfg st1
    obtain ⟨c1, c2, c3⟩ := updateDispatchPropsIfNeeded_configured cfg st1 g hd
    have hevd : (updateDispatchPropsIfNeeded cfg st1).events.all
        (eventRespects dS dD) = true := by
      rw [c3, ← hdd]
      show (eventRespects dS st1.doDispatchPropsDependOnOwnProps
          (Event.callDispatch cfg.dispatchVal
            (if st1.doDispatchPropsDependOnOwnProps then some st1.props else none))
          && true) = true
      rw [eventRespects_dispatch_arg]
      rfl
    unfold renderDispatchApply
    cases hr : (updateDispatchPropsIfNeeded cfg st1).result with
    | error e =>
      refine ⟨?_, f13, f14, c1, by rw [c2, hdd]⟩
      exact all_eventRespects_append dS dD ev1 _ hev hevd
    | ok dChanged =>
      obtain ⟨a1, a2, a3, a4, a5⟩ := renderFinish_respect cfg rsnap s dChanged o
        (ev1 ++ (updateDispatchPropsIfNeeded cfg st1).events)
        (updateDispatchPropsIfNeeded cfg st1).state dS dD
        (all_eventRespects_append dS dD ev1 _ hev hevd)
      exact ⟨a1, by rw [a2, f13], by rw [a3, f14], by rw [a4, c1],
        by rw [a5, c2, hdd]⟩
  · rw [if_neg hsd, renderDispatchApply_trivial]
    obtain ⟨a1, a2, a3, a4, a5⟩ := renderFinish_respect cfg rsnap s false o ev1
      st1 dS dD hev
    exact ⟨a1, a2, a3, by rw [a4, hd], by rw [a5, hdd]⟩

theorem renderMain_respect (cfg : Config) (st0 : ConnectState)
    (o store pre : Bool) (rsnap : Option Elem) (f g : MapFn) (dS dD : Bool)
    (hs : st0.finalMapStateToProps = some f)
    (hds : st0.doStatePropsDependOnOwnProps = dS)
    (hd : st0.finalMapDispatchToProps = some g)
    (hdd : st0.doDispatchPropsDependOnOwnProps = dD) :
    (renderMain cfg st0 o store pre rsnap).events.all (eventRespects dS dD)
      = true ∧
    (renderMain cfg st0 o store pre rsnap).state.finalMapStateToProps = some f ∧
    (renderMain cfg st0 o store pre rsnap).state.doStatePropsDependOnOwnProps
      = dS ∧
    (renderMain cfg st0 o store pre rsnap).state.finalMapDispatchToProps
      = some g ∧
    (renderMain cfg st0 o store pre rsnap).state.doDispatchPropsDependOnOwnProps
      = dD := by
  unfold renderMain renderStateApply
  by_cases hp : pre = true
  · rw [if_pos hp]
    obtain ⟨a1, a2, a3, a4, a5⟩ := renderDispatchStage_respect cfg rsnap o true
      (if cfg.pure && rsnap.isSome then o && st0.doDispatchPropsDependOnOwnProps
       else true) [] st0 g dS dD rfl hd hdd
    exact ⟨a1, by rw [a2, hs], by rw [a3, hds], a4, a5⟩
  · rw [if_neg hp]
    by_cases hcond : (if cfg.pure && rsnap.isSome then
        store || (o && st0.doStatePropsDependOnOwnProps) else true) = true
    · rw [if_pos hcond]
      obtain ⟨f1, f2, f3, f4, f5, f6, f7, f8, f9, f10, f11, f12, f13, f14, f15,
        f16, f17⟩ := updateStatePropsIfNeeded_frame cfg st0
      obtain ⟨c1, c2, c3⟩ := updateStatePropsIfNeeded_configured cfg st0 f hs
      have hevs : (updateStatePropsIfNeeded cfg st0).events.all
          (eventRespects dS dD) = true := by
        rw [c3, ← hds]
        show (eventRespects st0.doStatePropsDependOnOwnProps dD
            (Event.callState st0.storeCurrent
              (if st0.doStatePropsDependOnOwnProps then some st0.props else none))
            && true) = true
        rw [eventRespects_state_arg]
        rfl
      cases hr : (updateStatePropsIfNeeded cfg st0).result with
      | error e =>
        refine ⟨hevs, ?_, ?_, ?_, ?_⟩
        · show (updateStatePropsIfNeeded cfg st0).state.finalMapStateToProps
            = some f
          exact c1
        · show (updateStatePropsIfNeeded cfg st0).state.doStatePropsDependOnOwnProps
            = dS
          rw [c2]
          exact hds
        · show (updateStatePropsIfNeeded cfg st0).state.finalMapDispatchToProps
            = some g
          rw [f13]
          exact hd
        · show (updateStatePropsIfNeeded cfg st0).state.doDispatchPropsDependOnOwnProps
            = dD
          rw [f14]
          exact hdd
      | ok sChanged =>
        obtain ⟨a1, a2, a3, a4, a5⟩ := renderDispatchStage_respect cfg rsnap o
          sChanged
          (if cfg.pure && rsnap.isSome then o && st0.doDispatchPropsDependOnOwnProps
           else true) (updateStatePropsIfNeeded cfg st0).events
          (updateStatePropsIfNeeded cfg st0).state g dS dD hevs
          (by rw [f13]; exact hd) (by rw [f14]; exact hdd)
        exact ⟨a1, by rw [a2, c1], by rw [a3, c2, hds], a4, a5⟩
    · rw [if_neg hcond]
      obtain ⟨a1, a2, a3, a4, a5⟩ := renderDispatchStage_respect cfg rsnap o false
        (if cfg.pure && rsnap.isSome then o && st0.doDispatchPropsDependOnOwnProps
         else true) [] st0 g dS dD rfl hd hdd
      exact ⟨a1, by rw [a2, hs], by rw [a3, hds], a4, a5⟩

theorem render_respect (cfg : Config) (st : ConnectState) (f g : MapFn)
    (dS dD : Bool)
    (hs : st.finalMapStateToProps = some f)
    (hds : st.doStatePropsDependOnOwnProps = dS)
    (hd : st.finalMapDispatchToProps = some g)
    (hdd : st.doDispatchPropsDependOnOwnProps = dD) :
    (render cfg st).events.all (eventRespects dS dD) = true ∧
    (render cfg st).state.finalMapStateToProps = some f ∧
    (render cfg st).state.doStatePropsDependOnOwnProps = dS ∧
    (render cfg st).state.finalMapDispatchToProps = some g ∧
    (render cfg st).state.doDispatchPropsDependOnOwnProps = dD := by
  unfold render
  cases herr : st.statePropsPrecalculationError with
  | some e => exact ⟨rfl, hs, hds, hd, hdd⟩
  | none =>
    exact renderMain_respect cfg (resetFlags st) st.haveOwnPropsChanged
      st.hasStoreStateChanged st.haveStatePropsBeenPrecalculated
      st.renderedElement f g dS dD hs hds hd hdd

theorem handleChangeTail_respect (cfg : Config) (st1 : ConnectState)
    (ev : List Event) (v : Val) (f g : MapFn) (dS dD : Bool)
    (hev : ev.all (eventRespects dS dD) = true)
    (hs : st1.finalMapStateToProps = some f)
    (hds : st1.doStatePropsDependOnOwnProps = dS)
    (hd : st1.finalMapDispatchToProps = some g)
    (hdd : st1.doDispatchPropsDependOnOwnProps = dD) :
    (handleChangeTail cfg st1 ev v).events.all (eventRespects dS dD) = true ∧
    (handleChangeTail cfg st1 ev v).state.finalMapStateToProps = some f ∧
    (handleChangeTail cfg st1 ev v).state.doStatePropsDependOnOwnProps = dS ∧
    (handleChangeTail cfg st1 ev v).state.finalMapDispatchToProps = some g ∧
    (handleChangeTail cfg st1 ev v).state.doDispatchPropsDependOnOwnProps = dD := by
  unfold handleChangeTail
  obtain ⟨a1, a2, a3, a4, a5⟩ := render_respect cfg
    { st1 with hasStoreStateChanged := true, recordedStoreState := v } f g dS dD
    hs hds hd hdd
  exact ⟨all_eventRespects_append dS dD ev _ hev a1, a2, a3, a4, a5⟩

theorem receiveProps_config_frame (cfg : Config) (st : ConnectState) (p : Obj) :
    (receiveProps cfg st p).finalMapStateToProps = st.finalMapStateToProps ∧
    (receiveProps cfg st p).doStatePropsDependOnOwnProps
      = st.doStatePropsDependOnOwnProps ∧
    (receiveProps cfg st p).finalMapDispatchToProps = st.finalMapDispatchToProps ∧
    (receiveProps cfg st p).doDispatchPropsDependOnOwnProps
      = st.doDispatchPropsDependOnOwnProps := by
  unfold receiveProps componentWillReceiveProps
  split <;> exact ⟨rfl, rfl, rfl, rfl⟩

theorem step_respect (cfg : Config) (st : ConnectState) (u : Update)
    (f g : MapFn) (dS dD : Bool)
    (hs : st.finalMapStateToProps = some f)
    (hds : st.doStatePropsDependOnOwnProps = dS)
    (hd : st.finalMapDispatchToProps = some g)
    (hdd : st.doDispatchPropsDependOnOwnProps = dD) :
    (step cfg st u).events.all (eventRespects dS dD) = true ∧
    (step cfg st u).state.finalMapStateToProps = some f ∧
    (step cfg st u).state.doStatePropsDependOnOwnProps = dS ∧
    (step cfg st u).state.finalMapDispatchToProps = some g ∧
    (step cfg st u).state.doDispatchPropsDependOnOwnProps = dD := by
  cases u with
  | ownProps p =>
    simp only [step]
    unfold stepOwnProps
    obtain ⟨r1, r2, r3, r4⟩ := receiveProps_config_frame cfg st p
    by_cases hscu : (!cfg.pure || (receiveProps cfg st p).haveOwnPropsChanged
        || (receiveProps cfg st p).hasStoreStateChanged) = true
    · rw [if_pos hscu]
      obtain ⟨a1, a2, a3, a4, a5⟩ := render_respect cfg (receiveProps cfg st p)
        f g dS dD (by rw [r1]; exact hs) (by rw [r2]; exact hds)
        (by rw [r3]; exact hd) (by rw [r4]; exact hdd)
      exact ⟨a1, a2, a3, a4, a5⟩
    · rw [if_neg hscu]
      exact ⟨rfl, by dsimp only; rw [r1]; exact hs, by dsimp only; rw [r2]; exact hds,
        by dsimp only; rw [r3]; exact hd, by dsimp only; rw [r4]; exact hdd⟩
  | notify v =>
    simp only [step]
    unfold stepNotify handleChange
    dsimp only
    by_cases h1 : (!st.subscribed) = true
    · rw [if_pos h1]
      exact ⟨rfl, hs, hds, hd, hdd⟩
    · rw [if_neg h1]
      by_cases h2 : (cfg.pure && (st.recordedStoreState == v)) = true
      · rw [if_pos h2]
        exact ⟨rfl, hs, hds, hd, hdd⟩
      · rw [if_neg h2]
        by_cases h3 : (cfg.pure && !st.doStatePropsDependOnOwnProps) = true
        · rw [if_pos h3]
          obtain ⟨f1, f2, f3, f4, f5, f6, f7, f8, f9, f10, f11, f12, f13, f14,
            f15, f16, f17⟩ :=
            updateStatePropsIfNeeded_frame cfg { st with storeCurrent := v }
          obtain ⟨c1, c2, c3⟩ := updateStatePropsIfNeeded_configured cfg
            { st with storeCurrent := v } f hs
          have hevs : (updateStatePropsIfNeeded cfg
              { st with storeCurrent := v }).events.all (eventRespects dS dD)
              = true := by
            rw [c3]
            show (eventRespects dS dD (Event.callState v
                (if st.doStatePropsDependOnOwnProps then some st.props else none))
                && true) = true
            rw [← hds, eventRespects_state_arg]
            rfl
          cases hr : (updateStatePropsIfNeeded cfg
              { st with storeCurrent := v }).result with
          | error e =>
            obtain ⟨a1, a2, a3, a4, a5⟩ := handleChangeTail_respect cfg
              { (updateStatePropsIfNeeded cfg { st with storeCurrent := v }).state with
                  statePropsPrecalculationError := some e,
                  haveStatePropsBeenPrecalculated := true }
              (updateStatePropsIfNeeded cfg { st with storeCurrent := v }).events v
              f g dS dD hevs (by dsimp only; exact c1)
              (by dsimp only; rw [c2]; exact hds)
              (by dsimp only; rw [f13]; exact hd)
              (by dsimp only; rw [f14]; exact hdd)
            exact ⟨a1, a2, a3, a4, a5⟩
          | ok b =>
            cases b with
            | false =>
              exact ⟨hevs, by dsimp only; exact c1, by dsimp only; rw [c2]; exact hds,
                by dsimp only; rw [f13]; exact hd, by dsimp only; rw [f14]; exact hdd⟩
            | true =>
              obtain ⟨a1, a2, a3, a4, a5⟩ := handleChangeTail_respect cfg
                { (updateStatePropsIfNeeded cfg { st with storeCurrent := v }).state with
                    haveStatePropsBeenPrecalculated := true }
                (updateStatePropsIfNeeded cfg { st with storeCurrent := v }).events v
                f g dS dD hevs (by dsimp only; exact c1)
                (by dsimp only; rw [c2]; exact hds)
                (by dsimp only; rw [f13]; exact hd)
                (by dsimp only; rw [f14]; exact hdd)
              exact ⟨a1, a2, a3, a4, a5⟩
        · rw [if_neg h3]
          exact handleChangeTail_respect cfg { st with storeCurrent := v } [] v
            f g dS dD rfl hs hds hd hdd

theorem run_respect (cfg : Config) (us : List Update) :
    ∀ st : ConnectState, ∀ f g : MapFn, ∀ dS dD : Bool,
      st.finalMapStateToProps = some f →
      st.doStatePropsDependOnOwnProps = dS →
      st.finalMapDispatchToProps = some g →
      st.doDispatchPropsDependOnOwnProps = dD →
      (run cfg st us).2.all (eventRespects dS dD) = true ∧
      (run cfg st us).1.finalMapStateToProps = some f ∧
      (run cfg st us).1.doStatePropsDependOnOwnProps = dS ∧
      (run cfg st us).1.finalMapDispatchToProps = some g ∧
      (run cfg st us).1.doDispatchPropsDependOnOwnProps = dD := by
  induction us with
  | nil => intro st f g dS dD hs hds hd hdd; exact ⟨rfl, hs, hds, hd, hdd⟩
  | cons u us ih =>
    intro st f g dS dD hs hds hd hdd
    obtain ⟨s1, s2, s3, s4, s5⟩ := step_respect cfg st u f g dS dD hs hds hd hdd
    obtain ⟨r1, r2, r3, r4, r5⟩ := ih (step cfg st u).state f g dS dD s2 s3 s4 s5
    simp only [run]
    exact ⟨all_eventRespects_append dS dD _ _ s1 r1, r2, r3, r4, r5⟩

/-- C6: dependency on own props is fixed once from the resolved
mapping's declared parameter count — whenever an installation leaves a
resolved mapping in a slot, the dependency flag equals the decision
arity-not-1 for that resolved mapping — and, from then on, over every
sequence of updates, a resolved state (or dispatch) mapping of arity
exactly 1 is only ever invoked without an own-props argument, while a
resolved mapping of any other arity always receives one
(eventRespects). -/
theorem claim_C6 (cfg : Config) :
    (∀ st : ConnectState, ∀ h : MapFn, st.finalMapStateToProps = none →
      (computeStateProps cfg st).state.finalMapStateToProps = some h →
      (computeStateProps cfg st).state.doStatePropsDependOnOwnProps
        = decide (h.arity ≠ 1)) ∧
    (∀ st : ConnectState, ∀ h : MapFn, st.finalMapDispatchToProps = none →
      (computeDispatchProps cfg st).state.finalMapDispatchToProps = some h →
      (computeDispatchProps cfg st).state.doDispatchPropsDependOnOwnProps
        = decide (h.arity ≠ 1)) ∧
    (∀ st : ConnectState, ∀ f g : MapFn, ∀ us : List Update,
      st.finalMapStateToProps = some f →
      st.doStatePropsDependOnOwnProps = decide (f.arity ≠ 1) →
      st.finalMapDispatchToProps = some g →
      st.doDispatchPropsDependOnOwnProps = decide (g.arity ≠ 1) →
      (run cfg st us).2.all
        (eventRespects (decide (f.arity ≠ 1)) (decide (g.arity ≠ 1))) = true) := by
  refine ⟨?_, ?_, ?_⟩
  · intro st h hnone hsome
    unfold computeStateProps configureFinalMapState at hsome ⊢
    rw [hnone] at hsome ⊢
    dsimp only at hsome ⊢
    cases hfac : (mapState cfg).factory with
    | some fac =>
      rw [hfac] at hsome
      dsimp only at hsome ⊢
      injection hsome with hh
      rw [hh]
    | none =>
      rw [hfac] at hsome
      dsimp only at hsome ⊢
      cases hrun : (mapState cfg).run st.storeCurrent (some st.props) with
      | error e =>
        rw [hrun] at hsome
        dsimp only at hsome
        rw [hnone] at hsome
        exact absurd hsome (by simp)
      | ok v =>
        rw [hrun] at hsome
        dsimp only at hsome ⊢
        injection hsome with hh
        rw [← hh]
  · intro st h hnone hsome
    unfold computeDispatchProps configureFinalMapDispatch at hsome ⊢
    rw [hnone] at hsome ⊢
    dsimp only at hsome ⊢
    cases hfac : (mapDispatch cfg).factory with
    | some fac =>
      rw [hfac] at hsome
      dsimp only at hsome ⊢
      injection hsome with hh
      rw [hh]
    | none =>
      rw [hfac] at hsome
      dsimp only at hsome ⊢
      cases hrun : (mapDispatch cfg).run cfg.dispatchVal (some st.props) with
      | error e =>
        rw [hrun] at hsome
        dsimp only at hsome
        rw [hnone] at hsome
        exact absurd hsome (by simp)
      | ok v =>
        rw [hrun] at hsome
        dsimp only at hsome ⊢
        injection hsome with hh
        rw [← hh]
  · intro st f g us hs hds hd hdd
    exact (run_respect cfg us st f g (decide (f.arity ≠ 1)) (decide (g.arity ≠ 1))
      hs hds hd hdd).1

/-- C6 witness: the factory install fixes the flag from the resolved
arity-2 mapping, and a mounted arity-1 instance never passes own props
across a mixed run. -/
theorem claim_C6_witness :
    (computeStateProps exCfgFactory (initialState 5 [("p", 1)])).state.doStatePropsDependOnOwnProps
      = decide ((⟨2, fun s _ => Except.ok [("s", s)]⟩ : MapFn).arity ≠ 1) ∧
    (run exCfgShadow (mount exCfgShadow 0 []).state
        [Update.notify 1, Update.ownProps [("b", 2)], Update.notify 2]).2.all
      (eventRespects (decide ((1 : Nat) ≠ 1)) (decide ((1 : Nat) ≠ 1))) = true :=
  ⟨(claim_C6 exCfgFactory).1 (initialState 5 [("p", 1)])
      ⟨2, fun s _ => Except.ok [("s", s)]⟩ rfl rfl,
    (claim_C6 exCfgShadow).2.2 (mount exCfgShadow 0 []).state
      ⟨1, fun _ _ => Except.ok [("a", 5)]⟩ ⟨1, fun d _ => Except.ok [("dispatch", d)]⟩
      [Update.notify 1, Update.ownProps [("b", 2)], Update.notify 2]
      rfl rfl rfl rfl⟩

/-- C7: on the first computation for a slot the raw mapping is invoked
with (source, ownProps); a callable result is installed as the slot's
resolved mapping and immediately invoked to produce the actual partial,
while a non-callable result makes the raw function itself the resolved
mapping and is returned directly; and once a slot holds a resolved
mapping it is never replaced for the rest of the mounted instance's
update lifetime. -/
theorem claim_C7 (cfg : Config) :
    (∀ st : ConnectState, ∀ fac : MapFn, st.finalMapStateToProps = none →
      (mapState cfg).factory = some fac →
      (computeStateProps cfg st).state.finalMapStateToProps = some fac ∧
      (computeStateProps cfg st).events
        = [Event.callRawState st.storeCurrent st.props,
           Event.callState st.storeCurrent
             (if decide (fac.arity ≠ 1) then some st.props else none)] ∧
      (computeStateProps cfg st).result
        = fac.run st.storeCurrent
            (if decide (fac.arity ≠ 1) then some st.props else none)) ∧
    (∀ st : ConnectState, ∀ v : Obj, st.finalMapStateToProps = none →
      (mapState cfg).factory = none →
      (mapState cfg).run st.storeCurrent (some st.props) = .ok v →
      (computeStateProps cfg st).result = .ok v ∧
      (computeStateProps cfg st).state.finalMapStateToProps
        = some { arity := (mapState cfg).arity, run := (mapState cfg).run } ∧
      (computeStateProps cfg st).events
        = [Event.callRawState st.storeCurrent st.props]) ∧
    (∀ st : ConnectState, ∀ fac : MapFn, st.finalMapDispatchToProps = none →
      (mapDispatch cfg).factory = some fac →
      (computeDispatchProps cfg st).state.finalMapDispatchToProps = some fac ∧
      (computeDispatchProps cfg st).events
        = [Event.callRawDispatch cfg.dispatchVal st.props,
           Event.callDispatch cfg.dispatchVal
             (if decide (fac.arity ≠ 1) then some st.props else none)] ∧
      (computeDispatchProps cfg st).result
        = fac.run cfg.dispatchVal
            (if decide (fac.arity ≠ 1) then some st.props else none)) ∧
    (∀ st : ConnectState, ∀ v : Obj, st.finalMapDispatchToProps = none →
      (mapDispatch cfg).factory = none →
      (mapDispatch cfg).run cfg.dispatchVal (some st.props) = .ok v →
      (computeDispatchProps cfg st).result = .ok v ∧
      (computeDispatchProps cfg st).state.finalMapDispatchToProps
        = some { arity := (mapDispatch cfg).arity, run := (mapDispatch cfg).run } ∧
      (computeDispatchProps cfg st).events
        = [Event.callRawDispatch cfg.dispatchVal st.props]) ∧
    (∀ st : ConnectState, ∀ f g : MapFn, ∀ us : List Update,
      st.finalMapStateToProps = some f →
      st.finalMapDispatchToProps = some g →
      (run cfg st us).1.finalMapStateToProps = some f ∧
      (run cfg st us).1.finalMapDispatchToProps = some g) := by
  refine ⟨?_, ?_, ?_, ?_, ?_⟩
  · intro st fac hnone hfac
    unfold computeStateProps configureFinalMapState
    rw [hnone, hfac]
    exact ⟨rfl, rfl, rfl⟩
  · intro st v hnone hfac hrun
    unfold computeStateProps configureFinalMapState
    rw [hnone, hfac]
    dsimp only
    rw [hrun]
    exact ⟨rfl, rfl, rfl⟩
  · intro st fac hnone hfac
    unfold computeDispatchProps configureFinalMapDispatch
    rw [hnone, hfac]
    exact ⟨rfl, rfl, rfl⟩
  · intro st v hnone hfac hrun
    unfold computeDispatchProps configureFinalMapDispatch
    rw [hnone, hfac]
    dsimp only
    rw [hrun]
    exact ⟨rfl, rfl, rfl⟩
  · intro st f g us hs hd
    obtain ⟨_, r2, _, r4, _⟩ := run_respect cfg us st f g
      st.doStatePropsDependOnOwnProps st.doDispatchPropsDependOnOwnProps
      hs rfl hd rfl
    exact ⟨r2, r4⟩

/-- C7 witness: the factory configuration installs and immediately
invokes the returned mapping; the direct configuration installs the raw
function and returns its first result; and a mounted instance keeps both
resolved mappings across a run. -/
theorem claim_C7_witness :
    (computeStateProps exCfgFactory (initialState 5 [("p", 1)])).state.finalMapStateToProps
      = some ⟨2, fun s _ => Except.ok [("s", s)]⟩ ∧
    (computeStateProps exCfgShadow (initialState 5 [("p", 1)])).result
      = .ok [("a", 5)] ∧
    (run exCfgShadow (mount exCfgShadow 0 []).state
        [Update.ownProps [("q", 3)], Update.notify 4]).1.finalMapStateToProps
      = some ⟨1, fun _ _ => Except.ok [("a", 5)]⟩ :=
  ⟨((claim_C7 exCfgFactory).1 (initialState 5 [("p", 1)])
      ⟨2, fun s _ => Except.ok [("s", s)]⟩ rfl rfl).1,
    ((claim_C7 exCfgShadow).2.1 (initialState 5 [("p", 1)]) [("a", 5)]
      rfl rfl rfl).1,
    ((claim_C7 exCfgShadow).2.2.2.2 (mount exCfgShadow 0 []).state
      ⟨1, fun _ _ => Except.ok [("a", 5)]⟩ ⟨1, fun d _ => Except.ok [("dispatch", d)]⟩
      [Update.ownProps [("q", 3)], Update.notify 4] rfl rfl).1⟩

end RCConnect
